import Mathlib


namespace Spec2Proof

/-- Substring test on character lists: `needle` occurs contiguously in
`hay` (Python `needle in hay`). -/
def listInfix (needle hay : List Char) : Bool :=
  match hay with
  | [] => needle.isEmpty
  | _ :: t => needle.isPrefixOf hay || listInfix needle t

/-- Python `needle in hay` for strings. -/
def strContains (hay needle : String) : Bool :=
  listInfix needle.data hay.data

/-- Lower-casing of a character as Python `str.lower` does on the
Latin repertoire used by this program (ASCII plus the accented
letters appearing in the queries/aliases). -/
def pyLowerChar (c : Char) : Char :=
  if 'A' ≤ c ∧ c ≤ 'Z' then Char.ofNat (c.toNat + 32)
  else if c = 'Á' then 'á' else if c = 'À' then 'à' else if c = 'Â' then 'â'
  else if c = 'Ã' then 'ã' else if c = 'É' then 'é' else if c = 'Ê' then 'ê'
  else if c = 'Í' then 'í' else if c = 'Ó' then 'ó' else if c = 'Ô' then 'ô'
  else if c = 'Õ' then 'õ' else if c = 'Ú' then 'ú' else if c = 'Ü' then 'ü'
  else if c = 'Ç' then 'ç'
  else c

/-- Python `s.lower()`. -/
def pyLower (s : String) : String :=
  ⟨s.data.map pyLowerChar⟩

/-- Python whitespace class `\s` (ASCII part). -/
def isPyWs (c : Char) : Bool :=
  c = ' ' || c = '\t' || c = '\n' || c = '\r' || c = '\x0b' || c = '\x0c'

/-- Python `s.strip()`. -/
def pyStrip (s : String) : String :=
  ⟨(s.data.dropWhile (fun c => isPyWs c)).reverse.dropWhile (fun c => isPyWs c) |>.reverse⟩

/-- Python `query.lower().strip()` as used at the top of the composite
orchestrator. -/
def pyLowerStrip (s : String) : String :=
  pyStrip (pyLower s)

/-- Case-insensitive substring test, the model of
`Series.str.contains(pat, case=False)` applied to one cell (no regex
metacharacters occur in the sector names this program passes). -/
def containsInsensitive (hay needle : String) : Bool :=
  strContains (pyLower hay) (pyLower needle)

/-- Consume exactly `n` digit characters (part of the `P\d{4,5}\s+`
pattern of `clean_product_name`). -/
def takeDigits : Nat → List Char → Option (List Char)
  | 0, l => some l
  | _ + 1, [] => none
  | n + 1, c :: cs => if c.isDigit then takeDigits n cs else none

/-- Consume at least one whitespace character, maximally (`\s+`). -/
def skipWs1 : List Char → Option (List Char)
  | [] => none
  | c :: cs => if isPyWs c then some (cs.dropWhile (fun d => isPyWs d)) else none

/-- Match `\d{4,5}\s+` (greedy with backtracking, as the `re` engine
does) right after a `P`, returning the unconsumed suffix. -/
def tryCode (l : List Char) : Option (List Char) :=
  match takeDigits 5 l with
  | some rest => skipWs1 rest
  | none =>
    match takeDigits 4 l with
    | some rest => skipWs1 rest
    | none => none

/-- Embedding of `re.sub` of the pattern `P\d{4,5}\s+` with the empty string:
scan left to right, removing non-overlapping matches.  Structural
recursion on a fuel bound (every step consumes at least one character,
so fuel = length is enough; the fuel-exhausted arm is unreachable and
returns the remaining input). -/
def cleanProductAux : Nat → List Char → List Char
  | _, [] => []
  | 0, l => l
  | fuel + 1, c :: cs =>
    if c = 'P' then
      match tryCode cs with
      | some rest => cleanProductAux fuel rest
      | none => c :: cleanProductAux fuel cs
    else c :: cleanProductAux fuel cs

/-- Embedding of `clean_product_name`: drop the `P0000` product code token and trim. -/
def clean_product_name (s : String) : String :=
  pyStrip ⟨cleanProductAux s.data.length s.data⟩

/-- The four fixed product-line lists (domain configuration data copied
verbatim from `preprocessing.py`; the checked-in file is double-encoded,
the strings below are the intended UTF-8 text). -/
def PLACAS_TEMPO : List String := [
  "P2340 PLACA MONTADA (SMD + PTH) 7311V22 TCS MULTIESCALA - 01-03 MK 12VCA-VCC",
  "P2341 PLACA MONTADA (SMD + PTH) 7311V22 RTP 01 MK 24 A 240VCA - 24 A 240VCC",
  "P0939 PLACA MONTADA (SMD + PTH) 7348V2 TRD 2016 MODELO 01 MK 110VCA",
  "P0940 PLACA MONTADA (SMD + PTH) 7348V2 TRD 2016 MODELO 01 MK 220VCA",
  "P0941 PLACA MONTADA (SMD + PTH) 7348V2 TRD 2016 MODELO 01 MK 24VCA-VCC",
  "P0943 PLACA MONTADA (SMD + PTH) 7348V2 TRD 2016 MODELO 02 MK 125VCC",
  "P0945 PLACA MONTADA (SMD + PTH) 7348V2 TRD 2016 MODELO 02 MK 220VCA",
  "P0946 PLACA MONTADA (SMD + PTH) 7348V2 TRD 2016 MODELO 02 MK 24VCA-VCC",
  "P2313 PLACA MONTADA (SMD + PTH) 7311V22 TCS 02-04 MULTIESCALA MK 24 A 240VCA - 24 A 240VCC",
  "P2315 PLACA MONTADA (SMD + PTH) 7311V22 TCS 01-03 MULTIESCALA MK 24 A 240VCA - 24 A 240VCC - V01",
  "P2338 PLACA MONTADA (SMD + PTH) 7311V22 RDR MULTIESCALA - MK 24 A 240VCA/VCC",
  "P1041 PLACA MONTADA (SMD + PTH) 7311V21 RDR MULTIESCALA - MK 24 A 240VCA - 24 A 240VCC",
  "P1044 PLACA MONTADA (SMD + PTH) 7311V22 RVB - MK 24 A 240VCA - 24 A 240VCC - V02",
  "P2314 PLACA MONTADA (SMD + PTH) 7311V22 TMF-02 - MK 24 A 240VCA/VCC+ 12VCA/VCC",
  "P1051 PLACA MONTADA (SMD + PTH) 7335V21 RT 01 MKC 12VCA-VCC V03",
  "P1052 PLACA MONTADA (SMD + PTH) 7335V21 RT 01 MKC 24VCA-VCC V03",
  "P2185 PLACA MONTADA (SMD + PTH) 7335V21RT 01 MKC 380-440VCA  V03",
  "P2187 PLACA MONTADA (SMD + PTH) 7335V21RT 01 MKC 220-380VCA  V03",
  "P1053 PLACA MONTADA (SMD + PTH) 7335V21 RT 01 MKC 94 A 242VCA V03",
  "P1396 PLACA MONTADA (SMD + PTH) 7336V22 MULTICAMADAS RAX 02 MKC 24 A 240VCA",
  "P1397 PLACA MONTADA (SMD + PTH) 7336V22 MULTIESCALA RYD - MKC 24 A 240 VCA - VCC",
  "P1406 PLACA MONTADA (SMD + PTH) 7336V22 MULTIESCALA TEI 05 MKC 24 A 240 VCA - VCC",
  "P1398 PLACA MONTADA (SMD + PTH) 7336V22 MULTIESCALA TEI C/POT - MKC 24 A 240 VCA - VCC",
  "P1399 PLACA MONTADA (SMD + PTH) 7336V22 MULTIESCALA TEI 02-04 MKC 12VCA-VCC",
  "P1392 PLACA MONTADA (SMD + PTH) 7336V22 MULTIESCALA TEI 02-04 MKC 24 A 240 VCA - VCC",
  "P1377 PLACA MONTADA (SMD + PTH) 7344V23 RAX 01 MKC 24 A 240 VCA - VCC",
  "P2290 PLACA MONTADA (SMD + PTH) 7344V23 RBE 01-03 MKC 24 A 240VCA - 24 A 240VCC",
  "P1385 PLACA MONTADA (SMD + PTH) 7344V23 TEI MODELOS 01-03 MKC 12VCA-VCC",
  "P1387 PLACA MONTADA (SMD + PTH) 7344V23 MULTIESCALA TEI 01-03 / RPP MKC 24 A 240VCA - 24 A 240VCC V01",
  "P1375 PLACA MONTADA (SMD + PTH) 7344V23 TMF 01 MKC 24 A 240VCA - 24 A 240VCC V01",
  "P1381 PLACA MONTADA (SMD + PTH) 7344V23 TEI TEMPO FIXO - MKC 24 A 240VCA - 24 A 240VCC"]

def PLACAS_PROTECAO_1 : List String := [
  "P1119 PLACA MONTADA (SMD + PTH) 7332V21 FFS 01 MKC 220-380VCA V03",
  "P1149 PLACA MONTADA (SMD + PTH) 7334V21 FSN - MK 110VCA",
  "P1150 PLACA MONTADA (SMD + PTH) 7334V21 FSN - MK 220VCA",
  "P1151 PLACA MONTADA (SMD + PTH) 7334V21 FSN - MK 380VCA V04",
  "P1152 PLACA MONTADA (SMD + PTH) 7334V21 FSN - MK 440VCA",
  "P1153 PLACA MONTADA (SMD + PTH) 7334V21 FSN - MK 480VCA",
  "P1156 PLACA MONTADA (SMD + PTH) 7334V31 FSN MULTICAMADAS - MK 220VCA",
  "P1157 PLACA MONTADA (SMD + PTH) 7334V31 FSN MULTICAMADAS - MK 380VCA",
  "P1158 PLACA MONTADA (SMD + PTH) 7334V31 FSN MULTICAMADAS - MK 440VCA",
  "P1336 PLACA MONTADA (SMD + PTH) 7506V2 PBM TRIFASICO FP/CA PADRAO - MK 220-380VCA",
  "P1338 PLACA MONTADA (SMD + PTH) 7506V2 PBM MONOFASICO CA PADRAO - 01 MK 220-380VCA"]

def PLACAS_PROTECAO_2 : List String := [
  "P2443 PLACA MONTADA (SMD + PTH) 7370V21 RTM-07 MK 220VCA V01",
  "P1046 PLACA MONTADA (SMD + PTH) 7370V21 FIF 01 MK 220-440VCA - V03",
  "P1540 PLACA MONTADA (SMD + PTH) 7370V21 SST MK 480VCA",
  "P2525 PLACA MONTADA (SMD + PTH) 7370V22 RTM-07 MK 220VCA V0",
  "P1047 PLACA MONTADA (SMD + PTH) 7370V21 SST MK 110VCA",
  "P1048 PLACA MONTADA (SMD + PTH) 7370V21 SST MK 220VCA -",
  "P1049 PLACA MONTADA (SMD + PTH) 7370V21 SST MK 380VCA -",
  "P1050 PLACA MONTADA (SMD + PTH) 7370V21 SST MK 440VCA -",
  "P1078 PLACA MONTADA (SMD + PTH) 7314V21 RTC 12-14-16 MK 24VCC",
  "P1079 PLACA MONTADA (SMD + PTH) 7314V21 RTC 12-14-16 MK 48VCC",
  "P1080 PLACA MONTADA (SMD + PTH) 7314V21 RTC 12-14-16 MK 220VCC",
  "P1081 PLACA MONTADA (SMD + PTH) 7314V21 RTC 12-14-16 MK 250VCC",
  "P1082 PLACA MONTADA (SMD + PTH) 7314V21 RTC 12-14-16 MK 110/125VCC",
  "P1086 PLACA MONTADA (SMD + PTH) 7313V21 RST/RTT/MTP - MK 110VCA",
  "P1087 PLACA MONTADA (SMD + PTH) 7313V21 RST/RTT/MTP - MK 220VCA",
  "P1088 PLACA MONTADA (SMD + PTH) 7313V21 RST/RTT/MTP - MK 380VCA",
  "P1089 PLACA MONTADA (SMD + PTH) 7313V21 RST/RTT/MTP - MK 440VCA",
  "P1090 PLACA MONTADA (SMD + PTH) 7313V21 RST/RTT/MTP - MK 460VCA",
  "P1093 PLACA MONTADA (SMD + PTH) 7317V21 RCA MONOFASICO MODELOS 05-06 MM 220VCA -10A",
  "P1094 PLACA MONTADA (SMD + PTH) 7317V21 RCA MONOFASICO MODELOS 05-06 MK 110VCA -1A",
  "P1096 PLACA MONTADA (SMD + PTH) 7317V21 RCA MONOFASICO MODELOS 05-06 MK 110VCA - 10A",
  "P1097 PLACA MONTADA (SMD + PTH) 7317V21 RCA MONOFASICO MODELOS 05-06 MK 220VCA - 1A",
  "P1098 PLACA MONTADA (SMD + PTH) 7317V21 RCA MONOFASICO MODELOS 05-06 MK 220VCA - 5A",
  "P1099 PLACA MONTADA (SMD + PTH) 7317V21 RCA MONOFASICO MODELOS 03-04 MK 110VCA - 1A",
  "P2503 PLACA MONTADA (SMD + PTH) 7317V22 RCA MONOFASICO 01-02-03-04 MK 220VCA -10A",
  "P1106 PLACA MONTADA (SMD + PTH) 7317V21 RCA MONOFASICO 01-02-03-04 MK 110VCA - 5A",
  "P1108 PLACA MONTADA (SMD + PTH) 7317V22 RCA MONOFASICO 01-02-03-04 MK 220VCA -1A",
  "P1109 PLACA MONTADA (SMD + PTH) 7317V21 RCA MONOFASICO 01-02-03-04 MK 220VCA - 5A",
  "P1115 PLACA MONTADA (SMD + PTH) 7317V21 RCA TRIFASICO MODELOS 30-31 MK 220VCA -5A",
  "P1160 PLACA MONTADA (SMD + PTH) 7313V21 FIF/RSF - MK 110VCA",
  "P1161 PLACA MONTADA (SMD + PTH) 7313V21 FIF/RSF - MK 220VCA",
  "P1162 PLACA MONTADA (SMD + PTH) 7313V21 FIF/RSF - MK 380VCA",
  "P1163 PLACA MONTADA (SMD + PTH) 7313V21 FIF/RSF - MK 440VCA",
  "P1164 PLACA MONTADA (SMD + PTH) 7313V21 FIF/RSF - MK 480VCA",
  "P1168 PLACA MONTADA (SMD + PTH) 7313V21 RTM - MK 110VCA",
  "P1169 PLACA MONTADA (SMD + PTH) 7313V21 RTM - MK 220VCA",
  "P1170 PLACA MONTADA (SMD + PTH) 7313V21 RTM - MK 380VCA",
  "P1171 PLACA MONTADA (SMD + PTH) 7313V21 RTM - MK 460VCA",
  "P1172 PLACA MONTADA (SMD + PTH) 7313V21 RTM - MK 480VCA",
  "P1173 PLACA MONTADA (SMD + PTH) 7313V21 RTM - MK 254VCA",
  "P1174 PLACA MONTADA (SMD + PTH) 7313V21 RTM - MK 440VCA",
  "P1175 PLACA MONTADA (SMD + PTH) 7313V21 RTI - MK 110VCA - 48VCC",
  "P1180 PLACA MONTADA (SMD + PTH) 7313V21 RTI - MK 220VCA - 9VCC/12VCC",
  "P1182 PLACA MONTADA (SMD + PTH) 7313V21 RMV - MK 380-440VCA",
  "P1183 PLACA MONTADA (SMD + PTH) 7313V21 RMV - MK 220-380VCA",
  "P1192 PLACA MONTADA (SMD + PTH) 7317V21 RCC MONOFASICO MODELOS 05-06 MK 220VCC - 10A",
  "P1204 PLACA MONTADA (SMD + PTH) 7317V21 RCC MONOFASICO 01-02-03-04 MK 110VCA - 5A",
  "P1232 PLACA MONTADA (SMD + PTH) 7370V21 RTM-04 MK 220VCA V03"]

def PLACAS_NIVEL : List String := [
  "P1066 PLACA MONTADA (SMD + PTH) 7412V21 REL 01-03 MKC 24VCC",
  "P1067 PLACA MONTADA (SMD + PTH) 7412V21 REL 01-03 MKC 24VCA",
  "P1068 PLACA MONTADA (SMD + PTH) 7412V21 REL 01-03 MKC 110VCA",
  "P1070 PLACA MONTADA (SMD + PTH) 7412V21 REL 01-03 MKC 220/380VCA V04",
  "P1071 PLACA MONTADA (SMD + PTH) 7412V21 REL 01-03 MKC 440VCA",
  "P1072 PLACA MONTADA (SMD + PTH) 7412V21 REL 01-03 MKC 254VCA",
  "P1074 PLACA MONTADA (SMD + PTH) 7412V21 REP 01-03 MKC 24VCA",
  "P1075 PLACA MONTADA (SMD + PTH) 7412V21 REP 01-03 MKC 110VCA",
  "P1077 PLACA MONTADA (SMD + PTH) 7412V21 REP 01-03 MKC 220/380VCA",
  "P1120 PLACA MONTADA (SMD + PTH) 7330V21 MULT. CNS 01 MK 24VCA",
  "P1122 PLACA MONTADA (SMD + PTH) 7330V21 MULT. CNS 01 MK 220VCA",
  "P1125 PLACA MONTADA (SMD + PTH) 7330V21 MULT. RDN 01 MK 24VCA",
  "P1127 PLACA MONTADA (SMD + PTH) 7330V21 MULT. RDN 01 MK 220VCA",
  "P1128 PLACA MONTADA (SMD + PTH) 7330V21 MULT. RDN 01 MK 380VCA",
  "P1129 PLACA MONTADA (SMD + PTH) 7330V21 MULT. RES 01 MK 24VCC",
  "P1130 PLACA MONTADA (SMD + PTH) 7330V21 MULT. RES 01 MK 24VCA",
  "P1132 PLACA MONTADA (SMD + PTH) 7330V21 MULT. RES 01 MK 220VCA",
  "P1133 PLACA MONTADA (SMD + PTH) 7331V21 REL/RN - 01-02-03 MKC 254VCA",
  "P1139 PLACA MONTADA (SMD + PTH) 7331V21 RN 01-02-03 MKC 220-380VCA V03",
  "P1141 PLACA MONTADA (SMD + PTH) 7346V21 RNF MODELOS 01-03 MK 220VCA",
  "P1142 PLACA MONTADA (SMD + PTH) 7346V21 RNF MODELOS 01-03 MK 380VCA V03",
  "P1143 PLACA MONTADA (SMD + PTH) 7346V21 RNF MODELOS 01-03 MK 440VCA",
  "P1167 PLACA MONTADA (SMD + PTH) MULTICAMADAS 7412V31 REL 01-03 MK 220-380VCA"]

/-- The product-line membership sets (`PLACAS_*_SET`), built by cleaning
each listed name. -/
def PLACAS_TEMPO_SET : List String := PLACAS_TEMPO.map clean_product_name

def PLACAS_PROTECAO_1_SET : List String := PLACAS_PROTECAO_1.map clean_product_name

def PLACAS_PROTECAO_2_SET : List String := PLACAS_PROTECAO_2.map clean_product_name

def PLACAS_NIVEL_SET : List String := PLACAS_NIVEL.map clean_product_name

/-- Embedding of `classify_product_line`: classify a board into its production line,
defaulting to the sentinel category `Outros`. -/
def classify_product_line (p : String) : String :=
  let c := clean_product_name p
  if PLACAS_TEMPO_SET.contains c then "Tempo"
  else if PLACAS_PROTECAO_1_SET.contains c then "Proteção 1"
  else if PLACAS_PROTECAO_2_SET.contains c then "Proteção 2"
  else if PLACAS_NIVEL_SET.contains c then "Nível"
  else "Outros"

/-- Embedding of `CAUSA_RAIZ_MAP`: static lookup from the raw failure label to the
basic process root cause. -/
def CAUSA_RAIZ_MAP : List (String × String) := [
  ("Curto de solda", "Falha no Processo (Máquina de Solda/Revisão)"),
  ("Solda fria", "Falha no Processo (Máquina de Solda/Pallet/Revisão)"),
  ("Falha de solda", "Falha no Processo (Máquina de Solda/Pallet/Revisão)"),
  ("Defeito no componente", "Componente (Qualidade do Fornecedor)"),
  ("Componente incorreto", "Erro Humano (Linha de Montagem PTH/Revisão SMT)"),
  ("Componente faltando", "Erro Humano (Linha de Montagem PTH) ou Falha de SMT"),
  ("Trilha rompida", "Dano Físico (Acidente/Ajuste/Queima)"),
  ("Falha de gravação", "Falha de Equipamento (Máquina de Gravação/Setup)"),
  ("Sem defeito", "Desvio de Fluxo (Placa enviada incorretamente)"),
  ("Outros", "Causa Indeterminada")]

/-- Python `dict.get(k, d)` over an association list. -/
def lookupD (m : List (String × String)) (k d : String) : String :=
  (m.lookup k).getD d

/-- Python `str(x)` of a possibly-NaN string cell (`str(nan)` is the
literal text `nan`). -/
def pyStrOpt (o : Option String) : String := o.getD "nan"

/-- Embedding of `refine_causa_raiz_smt`: refine the basic root cause using the pair
(failure label, detection sector).  The nested `if` ladder of the source
(fall-through included) is flattened into an equivalent `if`/`else` chain. -/
def refine_causa_raiz_smt (falhaInd setorInd : Option String) (causaBasica : String) : String :=
  let falha := pyLower (pyStrOpt falhaInd)
  let setor := pyLower (pyStrOpt setorInd)
  if (strContains falha "solda" || strContains falha "curto") &&
     (strContains setor "smt" || strContains setor "iv") &&
     strContains falha "curto de solda" then
    "Falha Crítica SMT (Pasta/Stencil/Printer)"
  else if (strContains falha "solda" || strContains falha "curto") &&
     (strContains setor "smt" || strContains setor "iv") &&
     (strContains falha "falha de solda" || strContains falha "solda fria") then
    "Falha Processo SMT (Máquina Reflow/Perfil/P&P)"
  else if (strContains falha "componente faltando" || strContains falha "desalinhado") &&
     strContains setor "smt" then
    "Falha Processo SMT (Máquina Pick & Place/Setup)"
  else causaBasica

/-- The value domain of the derived `dppm_registro` column: numpy
true-division of integer columns yields a float that can be a finite
number, ±infinity, or NaN (the pandas null). -/
inductive FloatVal where
  | num (q : ℚ)
  | inf
  | neginf
  | nan
deriving DecidableEq, Repr

/-- IEEE-754 division of the two integer-valued operands appearing in
the DPPM computation (the float result of numpy true-division,
idealized as an exact rational when the divisor is non-zero). -/
def fdiv (a b : Int) : FloatVal :=
  if b ≠ 0 then FloatVal.num (Rat.divInt a b)
  else if 0 < a then FloatVal.inf
  else if a < 0 then FloatVal.neginf
  else FloatVal.nan

/-- One entry of the decoded `falhas_json` list.  `none` models a key
that is absent or null (after `pd.json_normalize`, a NaN cell).  Keys
other than `falha`/`setor` either get renamed to columns no analyzer in
scope reads, or are dropped as duplicates of parent columns. -/
structure FalhaEntry where
  falha : Option String
  setor : Option String
deriving DecidableEq, Repr

/-- A raw record as handed to `run_domain_analysis_composite` by the API
layer: one flat dict per failure-bearing checklist.  `falhas_json` is
`none` for a null / non-list / unparseable payload (all of which the
normalizer treats as an empty failure list: `safe_json_load` followed by
the `isinstance(x, list)` guard), and `some l` for a decoded list.
`data_registro` is the record timestamp at month granularity (`none`
models NaT after `pd.to_datetime(..., errors="coerce")`). -/
structure RawRecord where
  produto : Option String
  quantidade : Option Int
  quantidade_produzida : Option Int
  quantidade_diaria : Option Int
  data_registro : Option Nat
  falhas_json : Option (List FalhaEntry)
  observacao_producao : Option String
  observacao_assistencia : Option String
deriving DecidableEq, Repr

/-- A row of the intermediate flattened frame (after the `explode` and
`json_normalize` steps of `flatten_multi_failure_data`). -/
structure FlatRow where
  produto : Option String
  quantidade : Int
  quantidade_produzida : Int
  quantidade_diaria : Int
  data_registro : Option Nat
  observacao_producao : Option String
  observacao_assistencia : Option String
  falha_individual : Option String
  setor_falha_individual : Option String
deriving DecidableEq, Repr

/-- A row of the normalized table produced by `prepare_dataframe`.
String-typed fields are total because the source computes them with
`fillna` plus total maps; `periodo` is the column that only
`forecast_next_period` adds (`none` = column absent). -/
structure PreparedRow where
  produto : Option String
  quantidade : Int
  quantidade_produzida : Int
  quantidade_diaria : Int
  data_registro : Option Nat
  falha_individual : Option String
  setor_falha_individual : Option String
  causa_raiz_processo : String
  causa_raiz_detalhada : String
  observacao_combinada : String
  linha_produto : String
  dppm_registro : FloatVal
  periodo : Option String
deriving DecidableEq, Repr

/-- Embedding of `pd.to_numeric(col, errors="coerce").fillna(0).astype(int)` applied
to one cell: unparseable and missing values become 0. -/
def coerceQty (o : Option Int) : Int := o.getD 0

/-- Embedding of `flatten_multi_failure_data`: explode `falhas_json` into one row per
individual failure, copying the shared parent fields; parents with an
empty or malformed list are silently dropped (the `dropna` after
`explode`).  Quantities were already coerced by `prepare_dataframe`
before this step. -/
def flatten_multi_failure_data (data : List RawRecord) : List FlatRow :=
  data.flatMap (fun r =>
    (r.falhas_json.getD []).map (fun e =>
      { produto := r.produto
        quantidade := coerceQty r.quantidade
        quantidade_produzida := coerceQty r.quantidade_produzida
        quantidade_diaria := coerceQty r.quantidade_diaria
        data_registro := r.data_registro
        observacao_producao := r.observacao_producao
        observacao_assistencia := r.observacao_assistencia
        falha_individual := e.falha
        setor_falha_individual := e.setor }))

/-- The combined observation of one flattened row:
`(obs_prod.fillna("") + " " + obs_ass.fillna("")).str.strip()`. -/
def combined_observation (op oa : Option String) : String :=
  pyStrip (op.getD "" ++ " " ++ oa.getD "")

/-- Assemble one normalized row from one flattened row, given the two
table-level DPPM denominator flags
(`(df["quantidade_produzida"] > 0).any()` and the `quantidade_diaria`
analogue): derive the root-cause columns, the combined observation, the
product line and the DPPM metric. -/
def prep_row (anyQP anyQD : Bool) (r : FlatRow) : PreparedRow :=
  let causa := lookupD CAUSA_RAIZ_MAP (r.falha_individual.getD "") "Causa Indeterminada"
  { produto := r.produto
    quantidade := r.quantidade
    quantidade_produzida := r.quantidade_produzida
    quantidade_diaria := r.quantidade_diaria
    data_registro := r.data_registro
    falha_individual := r.falha_individual
    setor_falha_individual := r.setor_falha_individual
    causa_raiz_processo := causa
    causa_raiz_detalhada := refine_causa_raiz_smt r.falha_individual r.setor_falha_individual causa
    observacao_combinada := combined_observation r.observacao_producao r.observacao_assistencia
    linha_produto := classify_product_line (r.produto.getD "")
    dppm_registro :=
      if anyQP then fdiv (r.quantidade * 1000000) r.quantidade_produzida
      else if anyQD then fdiv (r.quantidade * 1000000) r.quantidade_diaria
      else FloatVal.num 0
    periodo := none }

/-- Embedding of `prepare_dataframe(data, flatten_multifalha=True)` - the
normalization pipeline as invoked by the orchestrator: coerce
quantities, flatten the multi-failure payload, then derive every
per-row column, with the DPPM denominator family chosen once per
table. -/
def prepare_dataframe (data : List RawRecord) : List PreparedRow :=
  if data.isEmpty then [] else
  let flat := flatten_multi_failure_data data
  if flat.isEmpty then [] else
  flat.map (prep_row (flat.any (fun r => 0 < r.quantidade_produzida))
                     (flat.any (fun r => 0 < r.quantidade_diaria)))

/-- Stable insertion into a sorted list (used to model the sorted group
keys of a pandas `groupby`). -/
def ordInsert (le : α → α → Bool) (x : α) : List α → List α
  | [] => [x]
  | y :: ys => if le x y then x :: y :: ys else y :: ordInsert le x ys

/-- Stable insertion sort. -/
def isort (le : α → α → Bool) : List α → List α
  | [] => []
  | x :: xs => ordInsert le x (isort le xs)

/-- Order of the month-period keys as pandas sorts the stringified
`to_period("M")` column: real months in chronological order (the
`YYYY-MM` rendering is zero padded, so lexicographic equals
chronological), and the `NaT` bucket of rows with a missing date last
(the literal string `NaT` sorts after every digit-initial period). -/
def optMonthLe : Option Nat → Option Nat → Bool
  | some a, some b => a ≤ b
  | some _, none => true
  | none, none => true
  | none, some _ => false

/-- The group keys of `df.groupby("periodo")` in `forecast_next_period`:
every distinct month of `data_registro`, plus one `NaT` bucket when some
row has no date. -/
def monthly_keys (df : List PreparedRow) : List (Option Nat) :=
  isort optMonthLe (df.map (fun r => r.data_registro)).dedup

/-- Embedding of `df.groupby("periodo")["quantidade"].sum().values`. -/
def monthly_series (df : List PreparedRow) : List Int :=
  (monthly_keys df).map (fun k =>
    ((df.filter (fun r => r.data_registro = k)).map (fun r => r.quantidade)).sum)

/-- The arithmetic of `forecast_next_period` on the aggregated series:
if more than 3 buckets exist, fit a first-degree trend over the bucket
index (`np.polyfit(range(n), series, 1)[0]` is the least-squares slope,
written out exactly), add it to the last value and clamp at zero; the
`try`/`except` cannot fire for `n ≥ 4` since the normal-equation
denominator is positive. -/
def forecast_from_series (s : List Int) : Option ℚ :=
  if 3 < s.length then
    let n : ℚ := (s.length : ℚ)
    let xs : List ℚ := (List.range s.length).map (fun i => (i : ℚ))
    let ys : List ℚ := s.map (fun v => (v : ℚ))
    let sx := xs.sum
    let sy := ys.sum
    let sxx := (xs.map (fun x => x * x)).sum
    let sxy := ((xs.zip ys).map (fun p => p.1 * p.2)).sum
    let slope := (n * sxy - sx * sy) / (n * sxx - sx * sx)
    let nextVal : ℚ := ((s.getLast?.getD 0 : Int) : ℚ) + slope
    some (max 0 nextVal)
  else none

/-- Embedding of `forecast_next_period` as a value: group the table per month and
forecast the next bucket. -/
def forecast_next_period (df : List PreparedRow) : Option ℚ :=
  forecast_from_series (monthly_series df)

/-- The rendering of one `periodo` cell (`to_period("M").astype(str)`):
an opaque injective stand-in for the `YYYY-MM` text, with `NaT` for a
missing date. -/
def period_str : Option Nat → String
  | some m => "M" ++ toString m
  | none => "NaT"

/-- The in-place effect of `forecast_next_period` on the shared table:
`df["periodo"] = ...` adds a new column, and
`df["quantidade"] = pd.to_numeric(df["quantidade"], ...).fillna(0)`
rewrites the already-integer quantity column with identical values. -/
def forecast_table_effect (df : List PreparedRow) : List PreparedRow :=
  df.map (fun r => { r with periodo := some (period_str r.data_registro),
                            quantidade := r.quantidade })

/-- The in-place effect of `run_sector_analysis` on the shared table:
`df["quantidade"] = pd.to_numeric(df.get("quantidade", 1), errors="coerce").fillna(0)`
rewrites the already-integer quantity column with identical values (no
other statement of the analyzer writes into `df`). -/
def run_sector_analysis_table_effect (df : List PreparedRow) : List PreparedRow :=
  df.map (fun r => { r with quantidade := r.quantidade })

/-- The NFD-decompose-then-ASCII-ignore step of `normalize_text`,
applied to one already-lowercased character: ASCII passes through,
accented Latin letters lose their accent, anything else is dropped. -/
def deaccentChar (c : Char) : Option Char :=
  if c.toNat < 128 then some c
  else if c = 'á' || c = 'à' || c = 'â' || c = 'ã' || c = 'ä' then some 'a'
  else if c = 'é' || c = 'ê' || c = 'è' || c = 'ë' then some 'e'
  else if c = 'í' || c = 'ì' || c = 'î' then some 'i'
  else if c = 'ó' || c = 'ô' || c = 'õ' || c = 'ò' then some 'o'
  else if c = 'ú' || c = 'ü' || c = 'ù' then some 'u'
  else if c = 'ç' then some 'c'
  else none

/-- Embedding of `re.sub(r"\s+", " ", text)`: collapse whitespace runs to a single
space. -/
def collapseWsAux : Nat → List Char → List Char
  | _, [] => []
  | 0, l => l
  | fuel + 1, c :: cs =>
    if isPyWs c then ' ' :: collapseWsAux fuel (cs.dropWhile (fun d => isPyWs d))
    else c :: collapseWsAux fuel cs

def collapseWs (l : List Char) : List Char := collapseWsAux l.length l

/-- Embedding of `normalize_text` of the local intent classifier: lowercase and
strip, remove accents (NFD + ASCII-ignore), replace every character
outside `[a-z0-9\s]` by a space, collapse whitespace runs. -/
def normalize_text (s : String) : String :=
  let t := (pyStrip (pyLower s)).data
  let t := t.filterMap deaccentChar
  let t := t.map (fun c =>
    if ('a' ≤ c && c ≤ 'z') || ('0' ≤ c && c ≤ '9') || isPyWs c then c else ' ')
  ⟨collapseWs t⟩

/-- Embedding of `SECTOR_ALIASES` in source (dict insertion) order. -/
def SECTOR_ALIASES : List (String × String) := [
  ("protecao 1", "Proteção 1"),
  ("protecao 2", "Proteção 2"),
  ("sylmara", "Revisão - Sylmara"),
  ("cryslainy", "Revisão - Cryslainy"),
  ("venancio", "Revisão - Venâncio"),
  ("evilla", "Revisão - Evilla"),
  ("evelin", "Revisão - Evelin"),
  ("revisao - outros", "Revisão - Outros"),
  ("smt", "SMT"),
  ("pth", "PTH"),
  ("tempo", "Tempo"),
  ("nivel", "Nível"),
  ("assistencia", "Assistência"),
  ("revisao", "Revisão")]

/-- Embedding of `_find_sector_in_query`: first alias key occurring in the
normalized query wins. -/
def find_sector_in_query (query : String) : Option String :=
  let nq := normalize_text query
  (SECTOR_ALIASES.find? (fun kv => strContains nq kv.1)).map (fun kv => kv.2)

/-- One pass of the `normalize_intents` loop (inside
`run_domain_analysis_composite`): normalize the tag text and bucket it;
tags matching no bucket (among them `nlp`, `general`, `default`,
and - because `normalize_text` turns `_` into a space - also
`causa_raiz`, `root_cause` and `smt_foco`) are dropped. -/
def normalize_intent_bucket (intent : String) : Option String :=
  let i := normalize_text intent
  if ["setor", "sector", "linha", "producao", "produção", "setores"].contains i then
    some "sector"
  else if ["causa", "root_cause", "processo", "process", "causas"].contains i then
    some "root_cause"
  else if ["qualidade", "quality", "rejeição", "rejeicao"].contains i then
    some "quality"
  else if ["smt", "smt_foco", "solda", "stencil", "pasta", "fluxo"].contains i then
    some "smt_foco"
  else if ["individual", "pessoa", "operador", "colaborador", "funcionário",
           "funcionarios", "revisor", "revisores", "responsável", "responsaveis",
           "avaliador", "avaliadores"].contains i then
    some "individual"
  else none

/-- Embedding of `normalize_intents`: bucket every detected tag and deduplicate (the
source wraps the result in `list(set(...))`; only membership is ever
read downstream, so the deduplicated list in first-bucket order is a
faithful deterministic representative). -/
def normalize_intents (intents : List String) : List String :=
  (intents.filterMap normalize_intent_bucket).dedup

/-- The keyword override that forces the `individual` intent. -/
def individual_keywords : List String :=
  ["revisor", "revisores", "pessoa da revisão", "funcionário", "colaborador", "avaliador"]

/-- Apply the keyword heuristic to the detected intent list. -/
def apply_individual_heuristic (queryLower : String) (active : List String) : List String :=
  if individual_keywords.any (fun w => strContains queryLower w) &&
     !(active.contains "individual") then
    active ++ ["individual"]
  else active

/-- Characters the greeting regex allows after the greeting word. -/
def greetingFiller (c : Char) : Bool :=
  isPyWs c || c = '.' || c = ',' || c = '!' || c = '?'

/-- The greeting gate: `re.match(r"^(oi|olá|ola|bom dia|boa tarde|boa noite|tudo bem|e aí)[\s.,!?]*$", query_lower)`. -/
def isGreeting (queryLower : String) : Bool :=
  ["oi", "olá", "ola", "bom dia", "boa tarde", "boa noite", "tudo bem", "e aí"].any
    (fun alt => alt.data.isPrefixOf queryLower.data &&
      (queryLower.data.drop alt.data.length).all greetingFiller)

/-- The definition gate patterns. -/
def definition_patterns : List String :=
  ["o que é dppm", "dppm o que é", "o que significa dppm", "definição de dppm", "o que e dppm"]

/-- The definition gate: any pattern occurring in the lowered query. -/
def isDefinition (queryLower : String) : Bool :=
  definition_patterns.any (fun p => strContains queryLower p)

/-- The continuation gate phrases. -/
def isContinuation (queryLower : String) : Bool :=
  strContains queryLower "continuar" || strContains queryLower "agora me mostre"

/-- The SMT keyword disjunct of the analyzer-selection ladder. -/
def smt_query_keywords : List String := ["smt", "solda", "stencil", "pasta", "fluxo"]

/-- The status field of one analyzer result. -/
inductive Status where
  | OK
  | INFO
  | FAIL
deriving DecidableEq, Repr

/-- One tip (title/detail pair). -/
structure Tip where
  title : String
  detail : String
deriving DecidableEq, Repr

/-- One chart descriptor.  Colour constants of the source are
presentational and omitted; `dsType` is the `type` key of the (single)
dataset, `chartType` the optional top-level `chart_type` key (the
explainers build chart dicts without it). -/
structure ChartData where
  title : String
  labels : List String
  data : List ℚ
  dsType : String
  chartType : Option String
deriving DecidableEq, Repr

/-- The `llm_raw_analysis` payload used to feed the strategic-insight
step. -/
structure LlmRaw where
  summary : String
  topics_data : List (String × ℚ)
deriving DecidableEq, Repr

/-- One analyzer result. -/
structure AResult where
  status : Status
  summary : String
  visualization_data : List ChartData
  tips : List Tip
  llm_raw : Option LlmRaw
deriving DecidableEq, Repr

/-- Total order used for sorted `groupby` keys. -/
def strLe (a b : String) : Bool := !(decide (b < a))

/-- Embedding of `df.groupby(col)["quantidade"].sum().reset_index()` for an
`Option`-valued (NaN-able) column: NaN keys are dropped, keys come out
sorted. -/
def group_sum_opt (df : List PreparedRow) (key : PreparedRow → Option String) :
    List (String × Int) :=
  let keys := isort strLe (df.filterMap key).dedup
  keys.map (fun k =>
    (k, ((df.filter (fun r => key r = some k)).map (fun r => r.quantidade)).sum))

/-- Embedding of `.sort_values("quantidade", ascending=False).head(3)` (ties keep the
sorted-key order of the groupby, the deterministic representative of the
unspecified pandas tie order). -/
def top3_desc (l : List (String × Int)) : List (String × Int) :=
  (isort (fun a b => b.2 ≤ a.2) l).take 3

/-- Embedding of `", ".join(...)`. -/
def joinComma (l : List String) : String := String.intercalate ", " l

/-- Embedding of `generate_explanation` (services/explainers.py): LLM-free summary
and charts for one explanation type, with the source control flow (each
specific section returns early when it produced content; the `general`
type walks all three sections accumulating charts).  On a prepared
table `falha_col`/`setor_col`/`causa_col` resolve to `falha_individual`
/ `setor_falha_individual` / `causa_raiz_detalhada` (a prepared table
has no `falha`, `setor_origem` or missing-causa variant). -/
def generate_explanation (df : List PreparedRow) (tipo : String) :
    String × List ChartData :=
  if df.isEmpty || ((df.map (fun r => r.quantidade)).sum = 0) then
    ("Sem dados válidos para análise no período selecionado.", [])
  else
    let falhaTop := top3_desc (group_sum_opt df (fun r => r.falha_individual))
    let c1 : List ChartData :=
      if (tipo = "falhas" || tipo = "general") && !falhaTop.isEmpty then
        [{ title := "Top 3 Falhas (falha_individual)",
           labels := falhaTop.map (fun p => p.1),
           data := falhaTop.map (fun p => (p.2 : ℚ)),
           dsType := "pie", chartType := none }]
      else []
    if tipo = "falhas" && !falhaTop.isEmpty then
      ("As falhas mais frequentes são **" ++ joinComma (falhaTop.map (fun p => p.1)) ++
        "**, totalizando **" ++ toString ((falhaTop.map (fun p => p.2)).sum) ++
        "** ocorrências neste período.", c1)
    else
      let setorTop := top3_desc (group_sum_opt df (fun r => r.setor_falha_individual))
      let c2 : List ChartData :=
        if (tipo = "setores" || tipo = "general") && !setorTop.isEmpty then
          c1 ++ [{ title := "Top 3 Setores (setor_falha_individual)",
                   labels := setorTop.map (fun p => p.1),
                   data := setorTop.map (fun p => (p.2 : ℚ)),
                   dsType := "bar", chartType := none }]
        else c1
      if tipo = "setores" && !setorTop.isEmpty then
        ("Os setores com mais falhas reportadas são **" ++
          joinComma (setorTop.map (fun p => p.1)) ++
          "**. Concentre a auditoria de processo nestas áreas.", c2)
      else
        let causaTop := top3_desc (group_sum_opt df (fun r => some r.causa_raiz_detalhada))
        let c3 : List ChartData :=
          if (tipo = "causas" || tipo = "general") && !causaTop.isEmpty then
            c2 ++ [{ title := "Top 3 Causas (causa_raiz_detalhada)",
                     labels := causaTop.map (fun p => p.1),
                     data := causaTop.map (fun p => (p.2 : ℚ)),
                     dsType := "pie", chartType := none }]
          else c2
        if tipo = "causas" && !causaTop.isEmpty then
          ("As principais causas-raiz no período são **" ++
            joinComma (causaTop.map (fun p => p.1)) ++
            "**. Isso requer uma ação corretiva imediata do time de Engenharia.", c3)
        else
          ("A análise estatística padrão mostra **" ++
            toString ((df.map (fun r => r.quantidade)).sum) ++
            "** falhas no total. O sistema está exibindo os dados primários encontrados para o período.",
            c3)

/-- Embedding of `INTENT_MAPPING` of services/intelligent_fallback.py. -/
def INTENT_MAPPING : List (String × String) := [
  ("quality", "falhas"),
  ("sector", "setores"),
  ("individual", "setores"),
  ("causas", "causas"),
  ("general", "general"),
  ("smt", "causas")]

/-- Embedding of `fallback_analysis` (services/intelligent_fallback.py): the local
resilience engine.  `predict` is the trained local intent classifier
(`IntentClassifier.predict`), an oracle of the environment.  The result
status is always `INFO`. -/
def fallback_analysis (predict : String → String) (query : String)
    (df : List PreparedRow) : AResult :=
  let intent := predict query
  let etype0 := lookupD INTENT_MAPPING intent "general"
  let p0 := generate_explanation df etype0
  let retry := p0.2.isEmpty && etype0 ≠ "general"
  let etype := if retry then "general" else etype0
  let p := if retry then generate_explanation df "general" else p0
  let status_summary :=
    "**Análise de Resiliência (Fallback Local Ativado)**\n\n" ++
    "A IA Principal encontrou um erro de comunicação ou parsing.\n" ++
    "O sistema ativou o modo Resiliência, analisando a intenção **\x27" ++
    etype.toUpper ++ "\x27** localmente.\n\n**Resumo Técnico:** " ++ p.1
  { status := Status.INFO,
    summary := status_summary,
    visualization_data := p.2,
    tips := [{ title := "Modo Autônomo",
               detail := "O sistema respondeu sem depender de LLM externo. Intenção classificada como \x27" ++
                 etype ++ "\x27." }],
    llm_raw := some { summary := status_summary, topics_data := [] } }

/-- Embedding of `value_counts().head(3)` over a total string column: occurrence
counts, most frequent first (ties in sorted-key order, the deterministic
representative). -/
def value_counts_top3 (l : List String) : List (String × Nat) :=
  (isort (fun (a b : String × Nat) => b.2 ≤ a.2)
    ((isort strLe l.dedup).map (fun k => (k, l.count k)))).take 3

/-- Embedding of `Series.mode().iat[0]` over the non-null values of a column:
`mode()` returns the modal values sorted, so `.iat[0]` is the smallest
most-frequent value; `none` when the column has no non-null value. -/
def mode_min (l : List String) : Option String :=
  (value_counts_top3 l).head?.map (fun p => p.1)

/-- Embedding of `run_structured_default_analysis`: the dependency-free statistical
summary (status `FAIL` on an empty table, `OK` otherwise). -/
def run_structured_default_analysis (df : List PreparedRow) (_query : String) : AResult :=
  if df.isEmpty then
    { status := Status.FAIL,
      summary := "Não há dados válidos para realizar a Análise Estruturada Padrão.",
      visualization_data := [], tips := [], llm_raw := none }
  else
    let causaCounts := value_counts_top3 (df.map (fun r => r.causa_raiz_detalhada))
    let topCausa := (causaCounts.head?.map (fun p => p.1)).getD "N/A"
    let linhaCounts := value_counts_top3 (df.map (fun r => r.linha_produto))
    let topLinha := (linhaCounts.head?.map (fun p => p.1)).getD "N/A"
    let topFalha := (mode_min (df.filterMap (fun r => r.falha_individual))).getD "N/A"
    let summary :=
      "**Análise Estruturada Padrão (Fallback Robusto)**\n" ++
      "A IA compilou as principais prioridades de foco com base nos dados brutos (" ++
      toString df.length ++ " registros):\n\n" ++
      "1. **Prioridade de Processo (Causa Raiz):** A causa mais comum é **\x27" ++ topCausa ++
      "\x27**.\n2. **Prioridade de Produção (Linha):** A linha de produto **\x27" ++ topLinha ++
      "\x27** tem a maior incidência de falhas.\n3. **Falha de Componente:** A falha mais registrada é **\x27" ++
      topFalha ++ "\x27**."
    let vis :=
      (if causaCounts.isEmpty then [] else
        [{ title := "Top 3 Causas Raiz de Processo",
           labels := causaCounts.map (fun p => p.1),
           data := causaCounts.map (fun p => (p.2 : ℚ)),
           dsType := "pie", chartType := some "pie" : ChartData }]) ++
      (if linhaCounts.isEmpty then [] else
        [{ title := "Top 3 Linhas de Produto com Falha",
           labels := linhaCounts.map (fun p => p.1),
           data := linhaCounts.map (fun p => (p.2 : ℚ)),
           dsType := "pie", chartType := some "pie" : ChartData }])
    { status := Status.OK,
      summary := summary,
      visualization_data := vis,
      tips := [
        { title := "Foco Imediato",
          detail := "Concentre a investigação na causa **\x27" ++ topCausa ++ "\x27**." },
        { title := "Sugestão de Busca",
          detail := "Para detalhes, pergunte: \x27Qual a tendência de rejeição mensal?\x27 ou \x27Análise do tópico das observações.\x27" }],
      llm_raw := some { summary := summary,
                        topics_data := [("Análise Estruturada Padrão", (df.length : ℚ))] } }

/-- Embedding of `run_greeting_analysis`: the canned greeting (the salutation depends
on the wall-clock hour, an environment input). -/
def run_greeting_analysis (hour : Nat) : AResult :=
  let greeting :=
    if 5 ≤ hour && hour < 12 then "Bom dia!"
    else if 12 ≤ hour && hour < 18 then "Boa tarde!"
    else "Boa noite!"
  let summary := greeting ++
    " Eu sou a **Cortex**, a inteligência artificial do Tron Analytics. Em que posso te ajudar hoje?" ++
    "\n\nPara começar, você pode me perguntar sobre:"
  { status := Status.OK,
    summary := summary,
    visualization_data := [],
    tips := [
      { title := "Tendência de Qualidade",
        detail := "Pergunte: \x27Qual é a taxa de rejeição mensal da produção?\x27" },
      { title := "Foco Geográfico",
        detail := "Pergunte: \x27Quais são as falhas mais comuns no setor de SMT?\x27" },
      { title := "Desvio de Processo",
        detail := "Pergunte: \x27Análise do tópico das observações.\x27" }],
    llm_raw := some { summary := summary, topics_data := [] } }

/-- Embedding of `run_dppm_definition`: the canned metric definition. -/
def run_dppm_definition : AResult :=
  let summary :=
    "**DPPM** significa **Defeitos Por Milhão**.\n\n" ++
    "É uma métrica de qualidade que mede a quantidade de peças defeituosas ou falhas " ++
    "encontradas a cada 1 milhão de unidades produzidas."
  { status := Status.OK,
    summary := summary,
    visualization_data := [],
    tips := [
      { title := "Cálculo Rápido",
        detail := "DPPM = (Total de Defeitos / Total Produzido) * 1.000.000" },
      { title := "Meta 6 Sigma",
        detail := "O objetivo final da metodologia 6 Sigma é atingir um DPPM de apenas 3,4." }],
    llm_raw := some { summary := summary, topics_data := [] } }

/-- The fixed no-data `FAIL` response of the orchestrator. -/
def no_data_result : AResult :=
  { status := Status.FAIL,
    summary := "Nenhum dado encontrado para análise ou dados inválidos. Verifique a seleção de dados.",
    visualization_data := [],
    tips := [{ title := "Base de Dados Vazia",
               detail := "Verifique a fonte de dados e o filtro inicial." }],
    llm_raw := some { summary := "", topics_data := [] } }

/-- The memory-based continuation response. -/
def continuation_result (lastQ lastS : String) : AResult :=
  { status := Status.INFO,
    summary := "Continuando a partir da última análise (" ++ lastQ ++ "):\n\n" ++ lastS,
    visualization_data := [],
    tips := [{ title := "Contexto",
               detail := "Reutilizei o resumo da análise anterior para dar continuidade à sua exploração." }],
    llm_raw := some { summary := "", topics_data := [] } }

/-- The analyzers the selection ladder can schedule. -/
inductive TaskKind where
  | individual
  | sectorSpecific
  | sectorGeneric
  | quality
  | rootCause
  | smt
  | nlp
  | fallbackGeneral
  | structuredDefault
deriving DecidableEq, Repr

/-- The orchestrator environment: everything the composite reads that
is not a pure function of its two arguments.  `detected` is the value
of `await detect_intents(query)` (LLM primary path with local fallback;
either path can produce any list of tags).  `outcome` gives, for each
scheduled analyzer that is not embedded concretely, its result or the
exception it raised (`Except.error`); `asyncio.gather` with
`return_exceptions=True` catches those exceptions at the batch
boundary.  `predict` is the local intent classifier and `insight` the
(possibly timed-out, hence `Option`) strategic-insight text. -/
structure Env where
  hour : Nat
  detected : List String
  outcome : TaskKind → Except Unit AResult
  predict : String → String
  insight : Option String

/-- Instrumentation of the orchestrator: which externally observable
steps ran (the spec asks for call-count instrumentation). -/
inductive Effect where
  | detectIntents
  | task (k : TaskKind)
  | forecastEval
  | fallbackFinal
deriving DecidableEq, Repr

/-- The orchestrator output: the response, the instrumentation trace,
and the conversation memory after the call. -/
structure CompOut where
  result : AResult
  trace : List Effect
  mem : List (String × String)
deriving Repr

/-- The analyzer-selection priority ladder (`tasks_to_run` construction,
analyst.py lines 938-980): `individual` alone has top priority; else one
sector analysis alone (the deep-dive when a named sector was found);
else the concurrent batch of quality / root-cause / SMT (intent or
keyword) / NLP, with the general-intent resilience fallback or the
structured default appended when the batch is empty or a
`default`/`general` intent is active. -/
def selectTasks (norm : List String) (queryLower : String) (sectorFound : Bool) :
    List TaskKind :=
  let t1 := if norm.contains "individual" then [TaskKind.individual] else []
  let t2 :=
    if t1.isEmpty && (norm.contains "sector" || sectorFound) then
      (if sectorFound then [TaskKind.sectorSpecific] else [TaskKind.sectorGeneric])
    else []
  let t12 := t1 ++ t2
  if t12.isEmpty then
    let batch :=
      (if norm.contains "quality" then [TaskKind.quality] else []) ++
      (if norm.contains "root_cause" then [TaskKind.rootCause] else []) ++
      (if norm.contains "smt_foco" ||
          smt_query_keywords.any (fun w => strContains queryLower w) then
        [TaskKind.smt] else []) ++
      (if norm.contains "nlp" then [TaskKind.nlp] else [])
    if batch.isEmpty || norm.contains "default" || norm.contains "general" then
      batch ++ [if norm.contains "general" then TaskKind.fallbackGeneral
                else TaskKind.structuredDefault]
    else batch
  else t12

/-- The result of one scheduled analyzer: the dependency-free
`fallback_analysis` and `run_structured_default_analysis` are local
deterministic code and embedded concretely; the remaining analyzers
(LLM-calling or modelled at the orchestration level) are environment
oracles. -/
def taskResult (env : Env) (df : List PreparedRow) (query : String) :
    TaskKind → Except Unit AResult
  | TaskKind.fallbackGeneral => Except.ok (fallback_analysis env.predict query df)
  | TaskKind.structuredDefault => Except.ok (run_structured_default_analysis df query)
  | t => env.outcome t

/-- The `OK`/`INFO` filter applied to the gathered results (exceptions
and `FAIL` results are discarded). -/
def keepSuccess (o : Except Unit AResult) : Option AResult :=
  match o with
  | Except.error _ => none
  | Except.ok r =>
    if r.status = Status.OK || r.status = Status.INFO then some r else none

/-- The surviving results of the concurrent batch, in selection order
(`asyncio.gather` preserves argument order). -/
def composite_successes (env : Env) (df : List PreparedRow) (query : String)
    (tasks : List TaskKind) : List AResult :=
  tasks.filterMap (fun t => keepSuccess (taskResult env df query t))

/-- Embedding of `AnalysisMemory.add` on a `deque(maxlen=5)`. -/
def mem_add (mem : List (String × String)) (q s : String) : List (String × String) :=
  let m := mem ++ [(q, s)]
  m.drop (m.length - 5)

/-- Python `f"{v:.0f}"` on the forecast value (round to an integer;
`round` models the half-rounding, which no theorem depends on). -/
def fmtF0 (v : ℚ) : String := toString (round v)

/-- The forecast sentence appended to the combined summary. -/
def forecast_sentence (v : ℚ) : String :=
  "\n\n📈 **Previsão de Risco:** Se o padrão se mantiver, o próximo período pode registrar cerca de **" ++
  fmtF0 v ++ " falhas**."

/-- The preventive-action tip appended together with the forecast. -/
def preventive_tip : Tip :=
  { title := "Ação Preventiva", detail := "Avalie planos de mitigação para o próximo ciclo." }

/-- The normalized active intents of one orchestrator call: detected
tags, keyword override, then `normalize_intents`. -/
def composite_norm_intents (detected : List String) (queryLower : String) : List String :=
  normalize_intents (apply_individual_heuristic queryLower detected)

/-- Embedding of `next((r["llm_raw_analysis"] for r in successful_results if ...), None)`:
the first surviving result carrying a non-empty `topics_data`. -/
def pick_llm_raw (successes : List AResult) : Option LlmRaw :=
  successes.findSome? (fun r =>
    match r.llm_raw with
    | some lr => if lr.topics_data.isEmpty then none else some lr
    | none => none)

/-- The strategic-insight step: when some result carried topic data,
the summarizer oracle ran; a non-empty returned text is appended as a
tip, a timeout/failure (`none`) or empty text is swallowed silently. -/
def insight_extra (llmRaw : Option LlmRaw) (ins : Option String) : List Tip :=
  match llmRaw, ins with
  | some _, some s =>
    if s ≠ "" then [{ title := "Insight Estratégico da IA", detail := s }] else []
  | _, _ => []

/-- The consolidation stage (steps after the gather): filter, join,
forecast, strategic insight, memory write.  Factored out so theorems can
speak about it; `run_domain_analysis_composite` below is gates +
selection + this. -/
def composite_consolidate (env : Env) (mem0 : List (String × String)) (query : String)
    (df : List PreparedRow) (tasks : List TaskKind) : CompOut :=
  let successes := composite_successes env df query tasks
  let traceBase := Effect.detectIntents :: tasks.map Effect.task
  if successes.isEmpty then
    let finalR := fallback_analysis env.predict query df
    { result := finalR,
      trace := traceBase ++ [Effect.fallbackFinal],
      mem := mem_add mem0 query finalR.summary }
  else
    let llmRaw := pick_llm_raw successes
    let combinedSummary := String.intercalate "\n\n" (successes.map (fun r => r.summary))
    let combinedVis := successes.flatMap (fun r => r.visualization_data)
    let combinedTips := successes.flatMap (fun r => r.tips)
    let fc := forecast_next_period df
    let withForecast :=
      match fc with
      | some v =>
        if 0 < v then
          (combinedSummary ++ forecast_sentence v, combinedTips ++ [preventive_tip])
        else (combinedSummary, combinedTips)
      | none => (combinedSummary, combinedTips)
    let tipsFinal := withForecast.2 ++ insight_extra llmRaw env.insight
    { result := { status := Status.OK,
                  summary := withForecast.1,
                  visualization_data := combinedVis,
                  tips := tipsFinal,
                  llm_raw := none },
      trace := traceBase ++ [Effect.forecastEval],
      mem := mem_add mem0 query withForecast.1 }

/-- Embedding of `run_domain_analysis_composite` (analyst.py lines 858-1048): the
composite orchestrator.  Short-circuit gates in source order (greeting,
definition, data preparation / empty check, continuation), then intent
detection, the keyword override, intent normalization, the selection
ladder, the concurrent batch, and consolidation.  The embedding is a
total function: every exception an analyzer can raise is caught at the
gather boundary (`Except.error` outcomes), so no exception propagates
to the caller. -/
def run_domain_analysis_composite (env : Env) (mem0 : List (String × String))
    (query : String) (data : List RawRecord) : CompOut :=
  let queryLower := pyLowerStrip query
  if isGreeting queryLower then
    { result := run_greeting_analysis env.hour, trace := [], mem := mem0 }
  else if isDefinition queryLower then
    { result := run_dppm_definition, trace := [], mem := mem0 }
  else
    let df := prepare_dataframe data
    if df.isEmpty || data.isEmpty then
      { result := no_data_result, trace := [], mem := mem0 }
    else if isContinuation queryLower && !mem0.isEmpty then
      let last := mem0.getLast?.getD ("", "")
      { result := continuation_result last.1 last.2, trace := [], mem := mem0 }
    else
      let norm := composite_norm_intents env.detected queryLower
      let sectorFound := (find_sector_in_query query).isSome
      let tasks := selectTasks norm queryLower sectorFound
      composite_consolidate env mem0 query df tasks

/-- The analyzer invocations recorded in a trace. -/
def tasksRun (trace : List Effect) : List TaskKind :=
  trace.filterMap (fun e => match e with | Effect.task k => some k | _ => none)

/-- The sub-analyses of the sector deep-dive. -/
inductive SubTask where
  | quality
  | rootCause
  | individual
  | nlp
deriving DecidableEq, Repr

/-- The sector filter
`df[df["setor_falha_individual"].str.contains(setor_nome, case=False, na=False)]`. -/
def sector_filter (df : List PreparedRow) (setorNome : String) : List PreparedRow :=
  df.filter (fun r =>
    match r.setor_falha_individual with
    | some s => containsInsensitive s setorNome
    | none => false)

/-- The NLP gate of the deep-dive:
`len(df_setor) > 30 and "observacao_combinada" in df_setor.columns and df_setor["observacao_combinada"].dropna().any()`
(the column always exists on a prepared table and is never NaN, so
`.dropna().any()` asks for some non-empty - truthy - observation). -/
def sector_nlp_gate (dfSetor : List PreparedRow) : Bool :=
  30 < dfSetor.length && dfSetor.any (fun r => r.observacao_combinada ≠ "")

/-- The sub-analyses `run_sector_specific_analysis` schedules: nothing
when no sector is recognized or the filtered table is empty (the
function then returns directly), else quality, root-cause and
individual on the filtered table, plus NLP when the gate passes. -/
def sector_specific_tasks (df : List PreparedRow) (query : String) : List SubTask :=
  match find_sector_in_query query with
  | none => []
  | some nome =>
    let dfSetor := sector_filter df nome
    if dfSetor.isEmpty then []
    else
      [SubTask.quality, SubTask.rootCause, SubTask.individual] ++
      (if sector_nlp_gate dfSetor then [SubTask.nlp] else [])

/-- Witness input for C6 part one: a single record with quantity 50,
produced volume 0 and daily volume 200. -/
def dataC6a : List RawRecord := [
  { produto := some "A", quantidade := some 50, quantidade_produzida := some 0,
    quantidade_diaria := some 200, data_registro := some 1,
    falhas_json := some [{ falha := some "Outros", setor := some "PTH" }],
    observacao_producao := none, observacao_assistencia := none }]

/-- The row `prepare_dataframe` derives from `dataC6a`. -/
def rowC6a : PreparedRow :=
  { produto := some "A", quantidade := 50, quantidade_produzida := 0,
    quantidade_diaria := 200, data_registro := some 1,
    falha_individual := some "Outros", setor_falha_individual := some "PTH",
    causa_raiz_processo := "Causa Indeterminada",
    causa_raiz_detalhada := "Causa Indeterminada",
    observacao_combinada := "", linha_produto := "Outros",
    dppm_registro := FloatVal.num 250000, periodo := none }

/-- Witness input for C6 part two: every record has both volumes absent
or zero. -/
def dataC6b : List RawRecord := [
  { produto := some "A", quantidade := some 3, quantidade_produzida := none,
    quantidade_diaria := some 0, data_registro := some 1,
    falhas_json := some [{ falha := some "Solda fria", setor := some "SMT" }],
    observacao_producao := some "ok", observacao_assistencia := none },
  { produto := some "B", quantidade := some 4, quantidade_produzida := some 0,
    quantidade_diaria := none, data_registro := none,
    falhas_json := some [{ falha := none, setor := none }],
    observacao_producao := none, observacao_assistencia := none }]

/-- The first row `prepare_dataframe` derives from `dataC6b`. -/
def rowC6b : PreparedRow :=
  { produto := some "A", quantidade := 3, quantidade_produzida := 0,
    quantidade_diaria := 0, data_registro := some 1,
    falha_individual := some "Solda fria", setor_falha_individual := some "SMT",
    causa_raiz_processo := "Falha no Processo (Máquina de Solda/Pallet/Revisão)",
    causa_raiz_detalhada := "Falha Processo SMT (Máquina Reflow/Perfil/P&P)",
    observacao_combinada := "ok", linha_produto := "Outros",
    dppm_registro := FloatVal.num 0, periodo := none }

/-- Witness input for C10: one row with positive produced volume, one
row with zero produced volume but positive daily volume. -/
def dataC10 : List RawRecord := [
  { produto := some "A", quantidade := some 1, quantidade_produzida := some 10,
    quantidade_diaria := some 7, data_registro := some 1,
    falhas_json := some [{ falha := some "Outros", setor := some "PTH" }],
    observacao_producao := none, observacao_assistencia := none },
  { produto := some "B", quantidade := some 3, quantidade_produzida := some 0,
    quantidade_diaria := some 7, data_registro := some 2,
    falhas_json := some [{ falha := some "Trilha rompida", setor := some "IV" }],
    observacao_producao := none, observacao_assistencia := none }]

/-- The second row `prepare_dataframe` derives from `dataC10`: its own
produced volume is zero, its daily volume is positive. -/
def rowC10 : PreparedRow :=
  { produto := some "B", quantidade := 3, quantidade_produzida := 0,
    quantidade_diaria := 7, data_registro := some 2,
    falha_individual := some "Trilha rompida", setor_falha_individual := some "IV",
    causa_raiz_processo := "Dano Físico (Acidente/Ajuste/Queima)",
    causa_raiz_detalhada := "Dano Físico (Acidente/Ajuste/Queima)",
    observacao_combinada := "", linha_produto := "Outros",
    dppm_registro := FloatVal.inf, periodo := none }

/-- Counterexample input for C4: a second record whose quantity and
produced volume are both zero while another record makes
quantity_produzida the table-level denominator. -/
def dataC4cex : List RawRecord := [
  { produto := some "A", quantidade := some 1, quantidade_produzida := some 5,
    quantidade_diaria := some 0, data_registro := some 1,
    falhas_json := some [{ falha := some "Outros", setor := some "PTH" }],
    observacao_producao := none, observacao_assistencia := none },
  { produto := some "B", quantidade := some 0, quantidade_produzida := some 0,
    quantidade_diaria := some 0, data_registro := some 1,
    falhas_json := some [{ falha := some "X", setor := some "PTH" }],
    observacao_producao := none, observacao_assistencia := none }]

/-- Witness for the amended C4, at the single-record table `dataC6a`
(its own copy below to keep claims independent). -/
def dataC4w : List RawRecord := [
  { produto := some "W", quantidade := some 2, quantidade_produzida := some 4,
    quantidade_diaria := some 0, data_registro := some 3,
    falhas_json := some [{ falha := some "Curto de solda", setor := some "SMT" }],
    observacao_producao := some "curto na placa", observacao_assistencia := none }]

/-- The row `prepare_dataframe` derives from `dataC4w`. -/
def rowC4w : PreparedRow :=
  { produto := some "W", quantidade := 2, quantidade_produzida := 4,
    quantidade_diaria := 0, data_registro := some 3,
    falha_individual := some "Curto de solda", setor_falha_individual := some "SMT",
    causa_raiz_processo := "Falha no Processo (Máquina de Solda/Revisão)",
    causa_raiz_detalhada := "Falha Crítica SMT (Pasta/Stencil/Printer)",
    observacao_combinada := "curto na placa", linha_produto := "Outros",
    dppm_registro := FloatVal.num 500000, periodo := none }

/-- A non-null periodo cell erased, for stating which column the
forecast step touches. -/
def erase_periodo (r : PreparedRow) : PreparedRow := { r with periodo := none }

/-- Counterexample table for C7: three real months plus one row with a
missing date (the NaT bucket), quantities 10, 12, 14, 16. -/
def mkRowC7 (d : Option Nat) (q : Int) : PreparedRow :=
  { produto := none, quantidade := q, quantidade_produzida := 0,
    quantidade_diaria := 0, data_registro := d,
    falha_individual := none, setor_falha_individual := none,
    causa_raiz_processo := "Causa Indeterminada",
    causa_raiz_detalhada := "Causa Indeterminada",
    observacao_combinada := "", linha_produto := "Outros",
    dppm_registro := FloatVal.num 0, periodo := none }

def t7cex : List PreparedRow :=
  [mkRowC7 (some 1) 10, mkRowC7 (some 2) 12, mkRowC7 (some 3) 14, mkRowC7 none 16]

/-- Witness table for C7: four real months with quantities 10, 12, 14, 16. -/
def t7w : List PreparedRow :=
  [mkRowC7 (some 1) 10, mkRowC7 (some 2) 12, mkRowC7 (some 3) 14, mkRowC7 (some 4) 16]

/-- Witness table for C7 part three: only three buckets. -/
def t7small : List PreparedRow :=
  [mkRowC7 (some 1) 10, mkRowC7 (some 2) 12, mkRowC7 (some 3) 14]

/-- Counterexample table for C8 (one ordinary prepared row). -/
def t8cex : List PreparedRow := [mkRowC7 (some 5) 3]

/-- Rows of the C9 counterexample table: all in the SMT sector, with a
given combined observation. -/
def mkRowC9 (obs : String) : PreparedRow :=
  { produto := none, quantidade := 1, quantidade_produzida := 0,
    quantidade_diaria := 0, data_registro := some 1,
    falha_individual := some "Curto de solda", setor_falha_individual := some "SMT",
    causa_raiz_processo := "Falha no Processo (Máquina de Solda/Revisão)",
    causa_raiz_detalhada := "Falha Crítica SMT (Pasta/Stencil/Printer)",
    observacao_combinada := obs, linha_produto := "Outros",
    dppm_registro := FloatVal.num 0, periodo := none }

/-- Thirty-one SMT rows, exactly one of which has a non-empty observation. -/
def t9cex : List PreparedRow := mkRowC9 "retrabalho de solda" :: List.replicate 30 (mkRowC9 "")

/-- An environment whose analyzer oracles all raise and whose local
classifier answers `general` (used by the orchestrator witnesses). -/
def envAllRaise (detected : List String) : Env :=
  { hour := 10, detected := detected, outcome := fun _ => Except.error (),
    predict := fun _ => "general", insight := none }

/-- One-record inputs for the orchestrator claim witnesses (one copy
per claim, so each claim stands alone). -/
def dataC1w : List RawRecord := [
  { produto := some "A", quantidade := some 3, quantidade_produzida := some 6,
    quantidade_diaria := some 0, data_registro := some 100,
    falhas_json := some [{ falha := some "Outros", setor := some "PTH" }],
    observacao_producao := none, observacao_assistencia := none }]

def dataC2w : List RawRecord := [
  { produto := some "B", quantidade := some 2, quantidade_produzida := some 9,
    quantidade_diaria := some 0, data_registro := some 101,
    falhas_json := some [{ falha := some "Solda fria", setor := some "PTH" }],
    observacao_producao := none, observacao_assistencia := none }]

def dataC3cex : List RawRecord := [
  { produto := some "C", quantidade := some 1, quantidade_produzida := some 4,
    quantidade_diaria := some 0, data_registro := some 102,
    falhas_json := some [{ falha := some "Trilha rompida", setor := some "PTH" }],
    observacao_producao := none, observacao_assistencia := none }]

def dataC3w : List RawRecord := [
  { produto := some "D", quantidade := some 5, quantidade_produzida := some 8,
    quantidade_diaria := some 0, data_registro := some 103,
    falhas_json := some [{ falha := some "Sem defeito", setor := some "PTH" }],
    observacao_producao := none, observacao_assistencia := none }]

theorem list_any_map {α β : Type} (f : α → β) (l : List α) (p : β → Bool) :
    (l.map f).any p = l.any (fun a => p (f a)) := by
  induction l with
  | nil => rfl
  | cons x xs ih => simp [ih]

theorem prep_row_quantidade (a b : Bool) (fr : FlatRow) :
    (prep_row a b fr).quantidade = fr.quantidade := rfl

theorem prep_row_qp (a b : Bool) (fr : FlatRow) :
    (prep_row a b fr).quantidade_produzida = fr.quantidade_produzida := rfl

theorem prep_row_qd (a b : Bool) (fr : FlatRow) :
    (prep_row a b fr).quantidade_diaria = fr.quantidade_diaria := rfl

theorem prep_row_dppm (a b : Bool) (fr : FlatRow) :
    (prep_row a b fr).dppm_registro =
      (if a then fdiv (fr.quantidade * 1000000) fr.quantidade_produzida
       else if b then fdiv (fr.quantidade * 1000000) fr.quantidade_diaria
       else FloatVal.num 0) := rfl

theorem prep_row_linha (a b : Bool) (fr : FlatRow) :
    (prep_row a b fr).linha_produto = classify_product_line (fr.produto.getD "") := rfl

theorem prep_row_causa (a b : Bool) (fr : FlatRow) :
    (prep_row a b fr).causa_raiz_processo =
      lookupD CAUSA_RAIZ_MAP (fr.falha_individual.getD "") "Causa Indeterminada" := rfl

theorem prep_row_detalhada (a b : Bool) (fr : FlatRow) :
    (prep_row a b fr).causa_raiz_detalhada =
      refine_causa_raiz_smt fr.falha_individual fr.setor_falha_individual
        (lookupD CAUSA_RAIZ_MAP (fr.falha_individual.getD "") "Causa Indeterminada") := rfl

/-- Every row of the normalized table is `prep_row` of a flattened row,
with the two table-level denominator flags. -/
theorem mem_prepare_dataframe {data : List RawRecord} {r : PreparedRow}
    (hr : r ∈ prepare_dataframe data) :
    ∃ fr ∈ flatten_multi_failure_data data,
      r = prep_row ((flatten_multi_failure_data data).any (fun x => 0 < x.quantidade_produzida))
                   ((flatten_multi_failure_data data).any (fun x => 0 < x.quantidade_diaria)) fr := by
  unfold prepare_dataframe at hr
  by_cases h1 : data.isEmpty
  · simp [h1] at hr
  · simp only [h1, Bool.false_eq_true, if_false] at hr
    by_cases h2 : (flatten_multi_failure_data data).isEmpty
    · simp [h2] at hr
    · simp only [h2, Bool.false_eq_true, if_false] at hr
      obtain ⟨fr, hfr, rfl⟩ := List.mem_map.1 hr
      exact ⟨fr, hfr, rfl⟩

/-- The table-level flag computed on the output table equals the one
computed on the flattened frame. -/
theorem prepare_any_qp (data : List RawRecord) (h : ¬ (prepare_dataframe data).isEmpty) :
    (prepare_dataframe data).any (fun x => 0 < x.quantidade_produzida) =
      (flatten_multi_failure_data data).any (fun x => 0 < x.quantidade_produzida) := by
  unfold prepare_dataframe at h ⊢
  by_cases h1 : data.isEmpty
  · simp [h1] at h
  · simp only [h1, Bool.false_eq_true, if_false] at h ⊢
    by_cases h2 : (flatten_multi_failure_data data).isEmpty
    · simp [h2] at h
    · simp only [h2, Bool.false_eq_true, if_false]
      rw [list_any_map]
      rfl

theorem prepare_any_qd (data : List RawRecord) (h : ¬ (prepare_dataframe data).isEmpty) :
    (prepare_dataframe data).any (fun x => 0 < x.quantidade_diaria) =
      (flatten_multi_failure_data data).any (fun x => 0 < x.quantidade_diaria) := by
  unfold prepare_dataframe at h ⊢
  by_cases h1 : data.isEmpty
  · simp [h1] at h
  · simp only [h1, Bool.false_eq_true, if_false] at h ⊢
    by_cases h2 : (flatten_multi_failure_data data).isEmpty
    · simp [h2] at h
    · simp only [h2, Bool.false_eq_true, if_false]
      rw [list_any_map]
      rfl

/-- The DPPM column of every row, characterized through the table-level
denominator choice (on the output table). -/
theorem prepare_dppm_spec (data : List RawRecord) (r : PreparedRow)
    (hr : r ∈ prepare_dataframe data) :
    r.dppm_registro =
      (if (prepare_dataframe data).any (fun x => 0 < x.quantidade_produzida) then
        fdiv (r.quantidade * 1000000) r.quantidade_produzida
      else if (prepare_dataframe data).any (fun x => 0 < x.quantidade_diaria) then
        fdiv (r.quantidade * 1000000) r.quantidade_diaria
      else FloatVal.num 0) := by
  have hne : ¬ (prepare_dataframe data).isEmpty := by
    intro hcon
    rw [List.isEmpty_iff] at hcon
    rw [hcon] at hr
    exact absurd hr (List.not_mem_nil r)
  obtain ⟨fr, hfr, rfl⟩ := mem_prepare_dataframe hr
  rw [prepare_any_qp data hne, prepare_any_qd data hne,
      prep_row_dppm, prep_row_quantidade, prep_row_qp, prep_row_qd]

/-- Embedding of `fdiv` is NaN exactly on the 0/0 case. -/
theorem fdiv_eq_nan_iff (a b : Int) : fdiv a b = FloatVal.nan ↔ a = 0 ∧ b = 0 := by
  unfold fdiv
  split_ifs with h1 h2 h3
  · constructor
    · intro h; exact absurd h (by simp)
    · intro h; exact absurd h.2 h1
  · constructor
    · intro h; exact absurd h (by simp)
    · intro h; rw [h.1] at h2; exact absurd h2 (lt_irrefl 0)
  · constructor
    · intro h; exact absurd h (by simp)
    · intro h; rw [h.1] at h3; exact absurd h3 (lt_irrefl 0)
  · constructor
    · intro _
      push_neg at h1
      exact ⟨le_antisymm (not_lt.1 h2) (not_lt.1 h3), h1⟩
    · intro _; rfl

/-- Looked-up values are values of the map. -/
theorem lookup_mem_values : ∀ (m : List (String × String)) (k v : String),
    m.lookup k = some v → v ∈ m.map Prod.snd := by
  intro m
  induction m with
  | nil => intro k v h; simp [List.lookup] at h
  | cons p rest ih =>
    intro k v h
    rw [List.lookup] at h
    by_cases hk : k == p.1
    · rw [hk] at h
      simp only [Option.some.injEq] at h
      simp [← h]
    · rw [Bool.not_eq_true] at hk
      rw [hk] at h
      exact List.mem_cons_of_mem _ (ih k v h)

/-- Embedding of `dict.get(k, d)` lands in the default-extended value set. -/
theorem lookupD_mem (m : List (String × String)) (k d : String) :
    lookupD m k d ∈ d :: m.map Prod.snd := by
  unfold lookupD
  cases h : m.lookup k with
  | none => simp
  | some v => simp only [Option.getD_some]; exact List.mem_cons_of_mem _ (lookup_mem_values m k v h)

/-- The refinement returns one of its three specific categories or the
basic cause unchanged. -/
theorem refine_mem (f s : Option String) (c : String) :
    refine_causa_raiz_smt f s c = c ∨
      refine_causa_raiz_smt f s c ∈
        ["Falha Crítica SMT (Pasta/Stencil/Printer)",
         "Falha Processo SMT (Máquina Reflow/Perfil/P&P)",
         "Falha Processo SMT (Máquina Pick & Place/Setup)"] := by
  dsimp only [refine_causa_raiz_smt]
  split_ifs <;> simp

/-- The product-line classifier only emits the four lines or the
sentinel. -/
theorem classify_mem (p : String) :
    classify_product_line p ∈ ["Tempo", "Proteção 1", "Proteção 2", "Nível", "Outros"] := by
  dsimp only [classify_product_line]
  split_ifs <;> simp

/-- Casting helper: the DPPM division is NaN exactly when both the
(integer) quantity and the (integer) denominator are zero. -/
theorem fdiv_q_nan (q d : Int) :
    fdiv (q * 1000000) d = FloatVal.nan ↔ q = 0 ∧ d = 0 := by
  rw [fdiv_eq_nan_iff]
  constructor
  · rintro ⟨h1, h2⟩
    refine ⟨?_, h2⟩
    rcases mul_eq_zero.1 h1 with h | h
    · exact h
    · norm_num at h
  · rintro ⟨h1, h2⟩
    subst h1
    subst h2
    norm_num

/-- Claim C6: a prepared table whose single record has quantity 50,
quantity_produced 0 and quantity_diaria 200 gets the diaria-based
defect-rate (50 × 1,000,000) / 200 = 250,000; and when every record of
the table has both volumes absent or zero, the metric is exactly 0.0 in
every row - a finite number, never NaN, infinity or an error. -/
theorem c6_defect_rate_metric :
    (∀ (data : List RawRecord) (r : PreparedRow),
      prepare_dataframe data = [r] →
      r.quantidade = 50 → r.quantidade_produzida = 0 → r.quantidade_diaria = 200 →
      r.dppm_registro = FloatVal.num 250000) ∧
    (∀ (data : List RawRecord) (r : PreparedRow),
      (∀ x ∈ prepare_dataframe data, x.quantidade_produzida = 0 ∧ x.quantidade_diaria = 0) →
      r ∈ prepare_dataframe data →
      r.dppm_registro = FloatVal.num 0) := by
  constructor
  · intro data r hpre h50 hqp hqd
    have hr : r ∈ prepare_dataframe data := by rw [hpre]; simp
    rw [prepare_dppm_spec data r hr, hpre]
    simp only [List.any_cons, List.any_nil, Bool.or_false, h50, hqp, hqd]
    decide
  · intro data r hall hr
    rw [prepare_dppm_spec data r hr]
    have hA : (prepare_dataframe data).any (fun x => 0 < x.quantidade_produzida) = false := by
      simp only [List.any_eq_false, decide_eq_true_eq]
      intro x hx
      rw [(hall x hx).1]
      omega
    have hB : (prepare_dataframe data).any (fun x => 0 < x.quantidade_diaria) = false := by
      simp only [List.any_eq_false, decide_eq_true_eq]
      intro x hx
      rw [(hall x hx).2]
      omega
    simp [hA, hB]

/-- Witness for C6 (both parts applied at the concrete tables). -/
theorem c6_witness :
    rowC6a.dppm_registro = FloatVal.num 250000 ∧ rowC6b.dppm_registro = FloatVal.num 0 :=
  ⟨c6_defect_rate_metric.1 dataC6a rowC6a (by decide) (by decide) (by decide) (by decide),
   c6_defect_rate_metric.2 dataC6b rowC6b (by decide) (by decide)⟩

/-- Claim C10: the defect-rate denominator family is chosen once per
table - as soon as one row has positive quantity_produced, every row
divides by its own quantity_produced (IEEE semantics for a zero own
denominator), and the quantity_diaria fallback is used for no row. -/
theorem c10_dppm_denominator_table_level :
    ∀ (data : List RawRecord) (r : PreparedRow),
      r ∈ prepare_dataframe data →
      (∃ x ∈ prepare_dataframe data, 0 < x.quantidade_produzida) →
      r.dppm_registro = fdiv (r.quantidade * 1000000) r.quantidade_produzida := by
  intro data r hr hex
  rw [prepare_dppm_spec data r hr]
  have hA : (prepare_dataframe data).any (fun x => 0 < x.quantidade_produzida) = true := by
    simp only [List.any_eq_true, decide_eq_true_eq]
    exact hex
  simp [hA]

/-- Witness for C10, at a row whose own quantity_produced is zero: the
metric is 3,000,000 / 0 = +infinity, not the diaria-based 3,000,000 / 7. -/
theorem c10_witness :
    rowC10.dppm_registro = fdiv (rowC10.quantidade * 1000000) rowC10.quantidade_produzida :=
  c10_dppm_denominator_table_level dataC10 rowC10 (by decide) ⟨
    { produto := some "A", quantidade := 1, quantidade_produzida := 10,
      quantidade_diaria := 7, data_registro := some 1,
      falha_individual := some "Outros", setor_falha_individual := some "PTH",
      causa_raiz_processo := "Causa Indeterminada",
      causa_raiz_detalhada := "Causa Indeterminada",
      observacao_combinada := "", linha_produto := "Outros",
      dppm_registro := FloatVal.num 100000, periodo := none }, by decide, by decide⟩

/-- Claim C4 (counterexample): on a non-empty raw list the normalizer
can emit a row whose defect-rate metric is NaN - the pandas null - so
the claim that `dppm_registro` is never null fails.  The second record
of `dataC4cex` has quantity 0 and produced volume 0 while the first
record selects the produced-volume denominator, giving 0/0 = NaN. -/
theorem c4_counterexample :
    (prepare_dataframe dataC4cex).map (fun r => r.dppm_registro) =
      [FloatVal.num 200000, FloatVal.nan] := by decide

/-- Claim C4 (amended): every row of the normalized table has a
non-null product line (one of the four lines or the sentinel `Outros`),
a non-null basic root cause (a mapped value or the sentinel
`Causa Indeterminada`), a non-null detailed root cause (a refinement
category or a basic value), and the combined observation is a total
string; the defect-rate metric is NaN exactly in rows whose quantity is
zero while the table-level selected denominator is zero for that row. -/
theorem c4_normalized_row_invariants :
    ∀ (data : List RawRecord) (r : PreparedRow), r ∈ prepare_dataframe data →
      r.linha_produto ∈ ["Tempo", "Proteção 1", "Proteção 2", "Nível", "Outros"] ∧
      r.causa_raiz_processo ∈ "Causa Indeterminada" :: CAUSA_RAIZ_MAP.map Prod.snd ∧
      r.causa_raiz_detalhada ∈
        "Falha Crítica SMT (Pasta/Stencil/Printer)" ::
        "Falha Processo SMT (Máquina Reflow/Perfil/P&P)" ::
        "Falha Processo SMT (Máquina Pick & Place/Setup)" ::
        "Causa Indeterminada" :: CAUSA_RAIZ_MAP.map Prod.snd ∧
      (r.dppm_registro = FloatVal.nan ↔
        (r.quantidade = 0 ∧
          (((prepare_dataframe data).any (fun x => 0 < x.quantidade_produzida) = true ∧
             r.quantidade_produzida = 0) ∨
           ((prepare_dataframe data).any (fun x => 0 < x.quantidade_produzida) = false ∧
            (prepare_dataframe data).any (fun x => 0 < x.quantidade_diaria) = true ∧
            r.quantidade_diaria = 0)))) := by
  intro data r hr
  have hdppm := prepare_dppm_spec data r hr
  obtain ⟨fr, hfr, hreq⟩ := mem_prepare_dataframe hr
  refine ⟨?_, ?_, ?_, ?_⟩
  · rw [hreq, prep_row_linha]
    exact classify_mem _
  · rw [hreq, prep_row_causa]
    exact lookupD_mem _ _ _
  · rw [hreq, prep_row_detalhada]
    rcases refine_mem fr.falha_individual fr.setor_falha_individual
      (lookupD CAUSA_RAIZ_MAP (fr.falha_individual.getD "") "Causa Indeterminada") with h | h
    · rw [h]
      have := lookupD_mem CAUSA_RAIZ_MAP (fr.falha_individual.getD "") "Causa Indeterminada"
      simp only [List.mem_cons] at this ⊢
      tauto
    · simp only [List.mem_cons] at h ⊢
      tauto
  · rw [hdppm]
    by_cases hA : (prepare_dataframe data).any (fun x => 0 < x.quantidade_produzida) = true
    · simp only [hA, if_true, true_and]
      rw [fdiv_q_nan]
      simp
    · rw [Bool.not_eq_true] at hA
      by_cases hB : (prepare_dataframe data).any (fun x => 0 < x.quantidade_diaria) = true
      · simp only [hA, hB, if_true, if_false, Bool.false_eq_true, true_and, false_and, false_or]
        rw [fdiv_q_nan]
      · rw [Bool.not_eq_true] at hB
        simp [hA, hB]

/-- Witness for C4 (amended), instantiated at `dataC4w`. -/
theorem c4_witness :
    rowC4w.linha_produto ∈ ["Tempo", "Proteção 1", "Proteção 2", "Nível", "Outros"] ∧
    rowC4w.causa_raiz_processo ∈ "Causa Indeterminada" :: CAUSA_RAIZ_MAP.map Prod.snd ∧
    rowC4w.causa_raiz_detalhada ∈
      "Falha Crítica SMT (Pasta/Stencil/Printer)" ::
      "Falha Processo SMT (Máquina Reflow/Perfil/P&P)" ::
      "Falha Processo SMT (Máquina Pick & Place/Setup)" ::
      "Causa Indeterminada" :: CAUSA_RAIZ_MAP.map Prod.snd ∧
    (rowC4w.dppm_registro = FloatVal.nan ↔
      (rowC4w.quantidade = 0 ∧
        (((prepare_dataframe dataC4w).any (fun x => 0 < x.quantidade_produzida) = true ∧
           rowC4w.quantidade_produzida = 0) ∨
         ((prepare_dataframe dataC4w).any (fun x => 0 < x.quantidade_produzida) = false ∧
          (prepare_dataframe dataC4w).any (fun x => 0 < x.quantidade_diaria) = true ∧
          rowC4w.quantidade_diaria = 0)))) :=
  c4_normalized_row_invariants dataC4w rowC4w (by decide)


/-- Claim C7 (counterexample): a table with only three monthly buckets
but one undated row still gets a forecast - the `NaT` rows of
`to_period("M").astype(str)` form a fourth aggregation bucket, so
`len(series) > 3` passes and `forecast_next_period` returns 18. -/
theorem c7_counterexample :
    ((t7cex.filterMap (fun r => r.data_registro)).dedup).length = 3 ∧
      forecast_next_period t7cex = some 18 := by
  constructor
  · decide
  · have h : monthly_series t7cex = [10, 12, 14, 16] := by decide
    unfold forecast_next_period
    rw [h]
    norm_num [forecast_from_series, List.range_succ]

/-- Claim C7 (amended): a table whose per-bucket aggregates are
[10, 12, 14, 16] is forecast as the last value plus the fitted linear
slope, 18; every forecast is clamped at 0; a table aggregating to fewer
than 4 buckets - where rows with a missing date form one extra bucket -
gets no forecast; and when the forecast is absent the orchestrator
appends neither the forecast sentence nor the preventive-action tip to
the consolidated result. -/
theorem c7_forecast :
    (∀ t : List PreparedRow, monthly_series t = [10, 12, 14, 16] →
      forecast_next_period t = some 18) ∧
    (∀ (t : List PreparedRow) (v : ℚ), forecast_next_period t = some v → 0 ≤ v) ∧
    (∀ t : List PreparedRow, (monthly_series t).length < 4 →
      forecast_next_period t = none) ∧
    (∀ (env : Env) (mem0 : List (String × String)) (q : String)
       (df : List PreparedRow) (tasks : List TaskKind),
      composite_successes env df q tasks ≠ [] →
      forecast_next_period df = none →
      (composite_consolidate env mem0 q df tasks).result.summary =
        String.intercalate "\n\n" ((composite_successes env df q tasks).map (fun r => r.summary)) ∧
      (composite_consolidate env mem0 q df tasks).result.tips =
        (composite_successes env df q tasks).flatMap (fun r => r.tips) ++
          insight_extra (pick_llm_raw (composite_successes env df q tasks)) env.insight) := by
  refine ⟨?_, ?_, ?_, ?_⟩
  · intro t h
    unfold forecast_next_period
    rw [h]
    norm_num [forecast_from_series, List.range_succ]
  · intro t v h
    unfold forecast_next_period forecast_from_series at h
    split_ifs at h with hlen
    simp only [Option.some.injEq] at h
    rw [← h]
    exact le_max_left 0 _
  · intro t hlen
    unfold forecast_next_period forecast_from_series
    rw [if_neg]
    omega
  · intro env mem0 q df tasks hsucc hfc
    have he : (composite_successes env df q tasks).isEmpty = false := by
      cases h : (composite_successes env df q tasks).isEmpty
      · rfl
      · exact absurd (List.isEmpty_iff.1 h) hsucc
    unfold composite_consolidate
    simp only [he, Bool.false_eq_true, if_false, hfc]
    exact ⟨trivial, trivial⟩

/-- Witness for C7: the four-month table is forecast as 18 (a
non-negative value), and the three-bucket table gets no forecast. -/
theorem c7_witness :
    forecast_next_period t7w = some 18 ∧ (0 : ℚ) ≤ 18 ∧ forecast_next_period t7small = none :=
  ⟨c7_forecast.1 t7w (by decide),
   c7_forecast.2.1 t7w 18 (c7_forecast.1 t7w (by decide)),
   c7_forecast.2.2.1 t7small (by decide)⟩

/-- Claim C8 (counterexample): the forecast step does modify the shared
normalized table - `forecast_next_period` assigns a new `periodo`
column in place, so the table after the call differs from the table
before it. -/
theorem c8_counterexample : forecast_table_effect t8cex ≠ t8cex := by decide

/-- Claim C8 (amended): no analyzer changes the table (the only
analyzer writing into the shared frame, the sector breakdown, rewrites
the integer quantity column with identical values), but the forecast
post-processing step adds the `periodo` column; it leaves every other
column and every row unchanged. -/
theorem c8_table_effects :
    (∀ df : List PreparedRow, run_sector_analysis_table_effect df = df) ∧
    (∀ df : List PreparedRow,
      (forecast_table_effect df).map erase_periodo = df.map erase_periodo) := by
  constructor
  · intro df
    have h : (fun r : PreparedRow => { r with quantidade := r.quantidade }) = id :=
      funext (fun r => by cases r; rfl)
    unfold run_sector_analysis_table_effect
    rw [h, List.map_id]
  · intro df
    unfold forecast_table_effect
    rw [List.map_map]
    have h : (erase_periodo ∘ fun r : PreparedRow =>
        { r with periodo := some (period_str r.data_registro), quantidade := r.quantidade }) =
        erase_periodo :=
      funext (fun r => by cases r; rfl)
    rw [h]

/-- Claim C9 (counterexample): the deep-dive adds the NLP sub-analyzer
to a 31-row sector table that has only ONE row with a non-empty
combined observation - the source gate is `len(df_setor) > 30` over all
rows plus `dropna().any()`, not a count of observation-bearing rows. -/
theorem c9_counterexample :
    find_sector_in_query "setor smt" = some "SMT" ∧
    SubTask.nlp ∈ sector_specific_tasks t9cex "setor smt" ∧
    (sector_filter t9cex "SMT").countP (fun r => r.observacao_combinada ≠ "") ≤ 30 := by
  decide

/-- Claim C9 (amended): the NLP sub-analyzer joins the deep-dive batch
iff a sector is recognized in the query, the sector-filtered table has
more than 30 rows in total, and at least one of them carries a
non-empty combined observation. -/
theorem c9_nlp_gate :
    ∀ (df : List PreparedRow) (q : String),
      SubTask.nlp ∈ sector_specific_tasks df q ↔
        ∃ nome, find_sector_in_query q = some nome ∧
          30 < (sector_filter df nome).length ∧
          ∃ r ∈ sector_filter df nome, r.observacao_combinada ≠ "" := by
  intro df q
  unfold sector_specific_tasks
  cases h : find_sector_in_query q with
  | none => simp
  | some nome =>
    simp only [Option.some.injEq]
    by_cases he : (sector_filter df nome).isEmpty
    · have hlen : (sector_filter df nome).length = 0 := by
        rw [List.isEmpty_iff] at he
        rw [he]
        rfl
      simp only [he, if_true]
      constructor
      · intro hmem
        exact absurd hmem (List.not_mem_nil _)
      · rintro ⟨nome2, rfl, h30, _⟩
        rw [hlen] at h30
        omega
    · simp only [he, Bool.false_eq_true, if_false]
      unfold sector_nlp_gate
      constructor
      · intro hmem
        rcases List.mem_append.1 hmem with h1 | h2
        · simp at h1
        · refine ⟨nome, rfl, ?_⟩
          by_cases hg : (decide (30 < (sector_filter df nome).length) &&
              (sector_filter df nome).any (fun r => r.observacao_combinada ≠ "")) = true
          · rw [Bool.and_eq_true] at hg
            obtain ⟨hlen, hany⟩ := hg
            refine ⟨of_decide_eq_true hlen, ?_⟩
            simpa using List.any_eq_true.1 hany
          · rw [if_neg hg] at h2
            exact absurd h2 (List.not_mem_nil _)
      · rintro ⟨nome2, heq, h30, r, hr, hobs⟩
        cases heq
        apply List.mem_append.2
        right
        rw [if_pos]
        · simp
        · rw [Bool.and_eq_true]
          refine ⟨decide_eq_true h30, ?_⟩
          apply List.any_eq_true.2
          exact ⟨r, hr, by simpa using hobs⟩


/-- Passing the four short-circuit gates, the orchestrator is exactly
selection plus consolidation. -/
theorem composite_gates (env : Env) (mem0 : List (String × String))
    (query : String) (data : List RawRecord)
    (hg : isGreeting (pyLowerStrip query) = false)
    (hd : isDefinition (pyLowerStrip query) = false)
    (hne : prepare_dataframe data ≠ [])
    (hc : isContinuation (pyLowerStrip query) = false) :
    run_domain_analysis_composite env mem0 query data =
      composite_consolidate env mem0 query (prepare_dataframe data)
        (selectTasks (composite_norm_intents env.detected (pyLowerStrip query))
          (pyLowerStrip query) (find_sector_in_query query).isSome) := by
  have hdata : data.isEmpty = false := by
    cases data with
    | nil => exact absurd rfl hne
    | cons a l => rfl
  have hdfe : (prepare_dataframe data).isEmpty = false := by
    cases h : (prepare_dataframe data).isEmpty
    · rfl
    · exact absurd (List.isEmpty_iff.1 h) hne
  unfold run_domain_analysis_composite
  simp [hg, hd, hc, hdata, hdfe]

/-- Extracting the task effects from a consolidate-shaped trace. -/
theorem tasksRun_aux (e : Effect) (he : ∀ k, e ≠ Effect.task k) :
    ∀ l : List TaskKind,
      tasksRun (Effect.detectIntents :: l.map Effect.task ++ [e]) = l := by
  intro l
  induction l with
  | nil =>
    cases e with
    | task k => exact absurd rfl (he k)
    | detectIntents => rfl
    | forecastEval => rfl
    | fallbackFinal => rfl
  | cons x xs ih =>
    show x :: tasksRun (Effect.detectIntents :: xs.map Effect.task ++ [e]) = x :: xs
    rw [ih]

/-- The analyzers a consolidated run records are exactly the selected
tasks, in selection order. -/
theorem tasksRun_consolidate (env : Env) (mem0 : List (String × String))
    (q : String) (df : List PreparedRow) (tasks : List TaskKind) :
    tasksRun (composite_consolidate env mem0 q df tasks).trace = tasks := by
  unfold composite_consolidate
  by_cases h : (composite_successes env df q tasks).isEmpty
  · simp only [h, if_true]
    exact tasksRun_aux Effect.fallbackFinal (by intro k; simp) tasks
  · simp only [h, Bool.false_eq_true, if_false]
    exact tasksRun_aux Effect.forecastEval (by intro k; simp) tasks

/-- When the `individual` intent is active the selection ladder
schedules the individual analyzer alone. -/
theorem selectTasks_individual (norm : List String) (ql : String) (sf : Bool)
    (h : norm.contains "individual" = true) :
    selectTasks norm ql sf = [TaskKind.individual] := by
  dsimp only [selectTasks]
  simp at h
  simp [h]

/-- Else, with a sector intent or a recognized sector name, exactly one
sector analysis is scheduled. -/
theorem selectTasks_sector (norm : List String) (ql : String) (sf : Bool)
    (h1 : norm.contains "individual" = false)
    (h2 : (norm.contains "sector" || sf) = true) :
    selectTasks norm ql sf =
      [if sf then TaskKind.sectorSpecific else TaskKind.sectorGeneric] := by
  dsimp only [selectTasks]
  simp at h1 h2
  cases sf with
  | true => simp [h1, h2]
  | false => simp_all

/-- Every bucket the intent normalizer can emit. -/
theorem normalize_intent_bucket_mem (i s : String)
    (h : normalize_intent_bucket i = some s) :
    s ∈ ["sector", "root_cause", "quality", "smt_foco", "individual"] := by
  dsimp only [normalize_intent_bucket] at h
  split_ifs at h <;> simp_all

/-- Every tag surviving intent normalization is one of the five
buckets. -/
theorem normalize_intents_only (intents : List String) (s : String)
    (h : s ∈ normalize_intents intents) :
    s ∈ ["sector", "root_cause", "quality", "smt_foco", "individual"] := by
  unfold normalize_intents at h
  rw [List.mem_dedup] at h
  obtain ⟨i, _, hb⟩ := List.mem_filterMap.1 h
  exact normalize_intent_bucket_mem i s hb

theorem normalize_intents_no_nlp (intents : List String) :
    (normalize_intents intents).contains "nlp" = false := by
  cases hc : (normalize_intents intents).contains "nlp"
  · rfl
  · have := normalize_intents_only intents "nlp" (List.mem_of_elem_eq_true hc)
    simp at this

theorem normalize_intents_no_general (intents : List String) :
    (normalize_intents intents).contains "general" = false := by
  cases hc : (normalize_intents intents).contains "general"
  · rfl
  · have := normalize_intents_only intents "general" (List.mem_of_elem_eq_true hc)
    simp at this

theorem normalize_intents_no_default (intents : List String) :
    (normalize_intents intents).contains "default" = false := by
  cases hc : (normalize_intents intents).contains "default"
  · rfl
  · have := normalize_intents_only intents "default" (List.mem_of_elem_eq_true hc)
    simp at this

/-- With neither individual nor sector branch, the ladder yields the
batch (plus the fallback slot when it would be empty or a general or
default intent is active). -/
theorem selectTasks_else (norm : List String) (ql : String) (sf : Bool)
    (h1 : norm.contains "individual" = false)
    (h2 : (norm.contains "sector" || sf) = false) :
    selectTasks norm ql sf =
      (if ((if norm.contains "quality" then [TaskKind.quality] else []) ++
           (if norm.contains "root_cause" then [TaskKind.rootCause] else []) ++
           (if norm.contains "smt_foco" ||
               smt_query_keywords.any (fun w => strContains ql w) then
             [TaskKind.smt] else []) ++
           (if norm.contains "nlp" then [TaskKind.nlp] else [])).isEmpty ||
          norm.contains "default" || norm.contains "general" then
        ((if norm.contains "quality" then [TaskKind.quality] else []) ++
         (if norm.contains "root_cause" then [TaskKind.rootCause] else []) ++
         (if norm.contains "smt_foco" ||
             smt_query_keywords.any (fun w => strContains ql w) then
           [TaskKind.smt] else []) ++
         (if norm.contains "nlp" then [TaskKind.nlp] else [])) ++
          [if norm.contains "general" then TaskKind.fallbackGeneral
           else TaskKind.structuredDefault]
      else
        ((if norm.contains "quality" then [TaskKind.quality] else []) ++
         (if norm.contains "root_cause" then [TaskKind.rootCause] else []) ++
         (if norm.contains "smt_foco" ||
             smt_query_keywords.any (fun w => strContains ql w) then
           [TaskKind.smt] else []) ++
         (if norm.contains "nlp" then [TaskKind.nlp] else []))) := by
  dsimp only [selectTasks]
  simp at h1 h2
  simp [h1, h2]

/-- The NLP analyzer is never selected when its guarding intent is
absent (which, by `normalize_intents_no_nlp`, is always). -/
theorem selectTasks_no_nlp (norm : List String) (ql : String) (sf : Bool)
    (hnlp : norm.contains "nlp" = false) :
    TaskKind.nlp ∉ selectTasks norm ql sf := by
  by_cases hi : norm.contains "individual" = true
  · rw [selectTasks_individual norm ql sf hi]
    simp
  · rw [Bool.not_eq_true] at hi
    by_cases hs : (norm.contains "sector" || sf) = true
    · rw [selectTasks_sector norm ql sf hi hs]
      cases sf <;> simp
    · rw [Bool.not_eq_true] at hs
      rw [selectTasks_else norm ql sf hi hs]
      intro hmem
      rw [hnlp] at hmem
      split_ifs at hmem <;> simp_all

/-- The general-intent resilience fallback is never scheduled as a
batch member when its guarding intent is absent (which, by
`normalize_intents_no_general`, is always). -/
theorem selectTasks_no_fallbackGeneral (norm : List String) (ql : String) (sf : Bool)
    (hgen : norm.contains "general" = false) :
    TaskKind.fallbackGeneral ∉ selectTasks norm ql sf := by
  by_cases hi : norm.contains "individual" = true
  · rw [selectTasks_individual norm ql sf hi]
    simp
  · rw [Bool.not_eq_true] at hi
    by_cases hs : (norm.contains "sector" || sf) = true
    · rw [selectTasks_sector norm ql sf hi hs]
      cases sf <;> simp
    · rw [Bool.not_eq_true] at hs
      rw [selectTasks_else norm ql sf hi hs]
      intro hmem
      rw [hgen] at hmem
      split_ifs at hmem <;> simp_all



/-- A run reaching the ladder records the selected tasks; any
short-circuited run records none. -/
theorem composite_trace_cases (env : Env) (mem0 : List (String × String))
    (query : String) (data : List RawRecord) :
    tasksRun (run_domain_analysis_composite env mem0 query data).trace = [] ∨
    tasksRun (run_domain_analysis_composite env mem0 query data).trace =
      selectTasks (composite_norm_intents env.detected (pyLowerStrip query))
        (pyLowerStrip query) (find_sector_in_query query).isSome := by
  unfold run_domain_analysis_composite
  by_cases hg : isGreeting (pyLowerStrip query) = true
  · left
    simp [hg, tasksRun]
  · rw [Bool.not_eq_true] at hg
    by_cases hd : isDefinition (pyLowerStrip query) = true
    · left
      simp [hg, hd, tasksRun]
    · rw [Bool.not_eq_true] at hd
      by_cases hdf : ((prepare_dataframe data).isEmpty || data.isEmpty) = true
      · left
        simp [hg, hd, hdf, tasksRun]
      · rw [Bool.not_eq_true] at hdf
        by_cases hcont : (isContinuation (pyLowerStrip query) && !mem0.isEmpty) = true
        · left
          simp [hg, hd, hdf, hcont, tasksRun]
        · rw [Bool.not_eq_true] at hcont
          right
          simp only [hg, hd, hdf, hcont, Bool.false_eq_true, if_false]
          exact tasksRun_consolidate env mem0 query (prepare_dataframe data) _

/-- Claim C1: over a non-empty normalized table, on a non-greeting,
non-definition, non-continuation query, if every selected analyzer
raises or returns a FAIL-status result, the orchestrator returns the
local resilience fallback (`fallback_analysis`) with the non-error
`INFO` status; the embedding being a total function, no exception
reaches the caller. -/
theorem c1_total_failure_resilience :
    ∀ (env : Env) (mem0 : List (String × String)) (query : String) (data : List RawRecord),
      isGreeting (pyLowerStrip query) = false →
      isDefinition (pyLowerStrip query) = false →
      prepare_dataframe data ≠ [] →
      isContinuation (pyLowerStrip query) = false →
      (∀ t ∈ selectTasks (composite_norm_intents env.detected (pyLowerStrip query))
          (pyLowerStrip query) (find_sector_in_query query).isSome,
        taskResult env (prepare_dataframe data) query t = Except.error () ∨
        ∃ r, taskResult env (prepare_dataframe data) query t = Except.ok r ∧
          r.status = Status.FAIL) →
      (run_domain_analysis_composite env mem0 query data).result =
        fallback_analysis env.predict query (prepare_dataframe data) ∧
      (run_domain_analysis_composite env mem0 query data).result.status = Status.INFO := by
  intro env mem0 query data hg hd hne hc hfail
  rw [composite_gates env mem0 query data hg hd hne hc]
  have hsucc : composite_successes env (prepare_dataframe data) query
      (selectTasks (composite_norm_intents env.detected (pyLowerStrip query))
        (pyLowerStrip query) (find_sector_in_query query).isSome) = [] := by
    unfold composite_successes
    rw [List.filterMap_eq_nil_iff]
    intro t ht
    rcases hfail t ht with h | ⟨r, hr, hs⟩
    · rw [h]
      rfl
    · rw [hr]
      unfold keepSuccess
      simp [hs]
  unfold composite_consolidate
  simp only [hsucc, List.isEmpty_nil, if_true]
  exact ⟨trivial, rfl⟩

/-- Witness for C1: the individual analyzer is selected alone and
raises. -/
theorem c1_witness :
    (run_domain_analysis_composite (envAllRaise ["individual"]) []
        "desempenho por pessoa" dataC1w).result.status = Status.INFO := by
  have happ := c1_total_failure_resilience (envAllRaise ["individual"]) []
    "desempenho por pessoa" dataC1w (by decide) (by decide) (by decide) (by decide)
    (by
      intro t ht
      have hsel : selectTasks
          (composite_norm_intents (envAllRaise ["individual"]).detected
            (pyLowerStrip "desempenho por pessoa"))
          (pyLowerStrip "desempenho por pessoa")
          (find_sector_in_query "desempenho por pessoa").isSome = [TaskKind.individual] := by
        decide
      rw [hsel] at ht
      simp only [List.mem_singleton] at ht
      subst ht
      left
      rfl)
  exact happ.2

/-- Claim C2: a query whose normalized active intents contain
`individual` schedules exactly the individual-performance analyzer,
regardless of the other intents; otherwise, with an active sector
intent or a sector name recognized in the query, exactly one sector
analysis runs - the deep-dive when a sector name was found, else the
generic breakdown. -/
theorem c2_priority_ladder :
    ∀ (env : Env) (mem0 : List (String × String)) (query : String) (data : List RawRecord),
      isGreeting (pyLowerStrip query) = false →
      isDefinition (pyLowerStrip query) = false →
      prepare_dataframe data ≠ [] →
      isContinuation (pyLowerStrip query) = false →
      ((composite_norm_intents env.detected (pyLowerStrip query)).contains "individual" = true →
        tasksRun (run_domain_analysis_composite env mem0 query data).trace =
          [TaskKind.individual]) ∧
      ((composite_norm_intents env.detected (pyLowerStrip query)).contains "individual" = false →
        ((composite_norm_intents env.detected (pyLowerStrip query)).contains "sector" ||
          (find_sector_in_query query).isSome) = true →
        tasksRun (run_domain_analysis_composite env mem0 query data).trace =
          [if (find_sector_in_query query).isSome then TaskKind.sectorSpecific
           else TaskKind.sectorGeneric]) := by
  intro env mem0 query data hg hd hne hc
  rw [composite_gates env mem0 query data hg hd hne hc, tasksRun_consolidate]
  constructor
  · intro h
    exact selectTasks_individual _ _ _ h
  · intro h1 h2
    exact selectTasks_sector _ _ _ h1 h2

/-- Witness for C2: an `individual` intent runs that analyzer alone. -/
theorem c2_witness :
    tasksRun (run_domain_analysis_composite (envAllRaise ["individual"]) []
        "qual pessoa teve mais falhas" dataC2w).trace = [TaskKind.individual] :=
  (c2_priority_ladder (envAllRaise ["individual"]) [] "qual pessoa teve mais falhas"
    dataC2w (by decide) (by decide) (by decide) (by decide)).1 (by decide)

/-- Claim C3 (counterexample): with detected intents `nlp` and
`general` (and no individual or sector signal), the orchestrator runs
only the structured default - the NLP analyzer is not among the
executed tasks and `fallback_analysis` is not appended for the
`general` intent, because `normalize_intents` drops both tags. -/
theorem c3_counterexample :
    tasksRun (run_domain_analysis_composite (envAllRaise ["nlp", "general"]) []
        "xyzq" dataC3cex).trace = [TaskKind.structuredDefault] ∧
    TaskKind.nlp ∉ tasksRun (run_domain_analysis_composite (envAllRaise ["nlp", "general"]) []
        "xyzq" dataC3cex).trace ∧
    TaskKind.fallbackGeneral ∉ tasksRun (run_domain_analysis_composite
        (envAllRaise ["nlp", "general"]) [] "xyzq" dataC3cex).trace := by
  refine ⟨by decide, by decide, by decide⟩

/-- Claim C3 (amended): the `nlp`, `general` and `default` tags never
survive intent normalization; consequently, when neither the individual
nor the sector branch applies, the batch consists of the
quality / root-cause / SMT analyzers of the surviving intents (SMT also
by query keyword), with the structured default appended exactly when
that batch is empty - the NLP analyzer and the general-intent
resilience fallback are never scheduled, on any input. -/
theorem c3_batch_selection :
    (∀ intents : List String,
      (normalize_intents intents).contains "nlp" = false ∧
      (normalize_intents intents).contains "general" = false ∧
      (normalize_intents intents).contains "default" = false) ∧
    (∀ (env : Env) (mem0 : List (String × String)) (query : String) (data : List RawRecord),
      isGreeting (pyLowerStrip query) = false →
      isDefinition (pyLowerStrip query) = false →
      prepare_dataframe data ≠ [] →
      isContinuation (pyLowerStrip query) = false →
      (composite_norm_intents env.detected (pyLowerStrip query)).contains "individual" = false →
      (composite_norm_intents env.detected (pyLowerStrip query)).contains "sector" = false →
      find_sector_in_query query = none →
      tasksRun (run_domain_analysis_composite env mem0 query data).trace =
        (if ((if (composite_norm_intents env.detected (pyLowerStrip query)).contains "quality"
              then [TaskKind.quality] else []) ++
             (if (composite_norm_intents env.detected (pyLowerStrip query)).contains "root_cause"
              then [TaskKind.rootCause] else []) ++
             (if (composite_norm_intents env.detected (pyLowerStrip query)).contains "smt_foco" ||
                 smt_query_keywords.any (fun w => strContains (pyLowerStrip query) w)
              then [TaskKind.smt] else [])).isEmpty then
          ((if (composite_norm_intents env.detected (pyLowerStrip query)).contains "quality"
            then [TaskKind.quality] else []) ++
           (if (composite_norm_intents env.detected (pyLowerStrip query)).contains "root_cause"
            then [TaskKind.rootCause] else []) ++
           (if (composite_norm_intents env.detected (pyLowerStrip query)).contains "smt_foco" ||
               smt_query_keywords.any (fun w => strContains (pyLowerStrip query) w)
            then [TaskKind.smt] else [])) ++ [TaskKind.structuredDefault]
        else
          ((if (composite_norm_intents env.detected (pyLowerStrip query)).contains "quality"
            then [TaskKind.quality] else []) ++
           (if (composite_norm_intents env.detected (pyLowerStrip query)).contains "root_cause"
            then [TaskKind.rootCause] else []) ++
           (if (composite_norm_intents env.detected (pyLowerStrip query)).contains "smt_foco" ||
               smt_query_keywords.any (fun w => strContains (pyLowerStrip query) w)
            then [TaskKind.smt] else [])))) ∧
    (∀ (env : Env) (mem0 : List (String × String)) (query : String) (data : List RawRecord),
      TaskKind.nlp ∉ tasksRun (run_domain_analysis_composite env mem0 query data).trace ∧
      TaskKind.fallbackGeneral ∉
        tasksRun (run_domain_analysis_composite env mem0 query data).trace) := by
  refine ⟨?_, ?_, ?_⟩
  · intro intents
    exact ⟨normalize_intents_no_nlp intents, normalize_intents_no_general intents,
      normalize_intents_no_default intents⟩
  · intro env mem0 query data hg hd hne hc h1 h2 h3
    rw [composite_gates env mem0 query data hg hd hne hc, tasksRun_consolidate]
    have hsf : (find_sector_in_query query).isSome = false := by rw [h3]; rfl
    rw [hsf]
    rw [selectTasks_else _ _ _ h1 (by rw [h2, Bool.false_or])]
    have hnlp : (composite_norm_intents env.detected (pyLowerStrip query)).contains "nlp" = false :=
      normalize_intents_no_nlp _
    have hdef : (composite_norm_intents env.detected (pyLowerStrip query)).contains "default" = false :=
      normalize_intents_no_default _
    have hgen : (composite_norm_intents env.detected (pyLowerStrip query)).contains "general" = false :=
      normalize_intents_no_general _
    rw [hnlp, hdef, hgen]
    simp
  · intro env mem0 query data
    rcases composite_trace_cases env mem0 query data with h | h
    · rw [h]
      simp
    · rw [h]
      exact ⟨selectTasks_no_nlp _ _ _ (normalize_intents_no_nlp _),
        selectTasks_no_fallbackGeneral _ _ _ (normalize_intents_no_general _)⟩

/-- Witness for C3 (amended): a surviving `quality` intent yields the
single-element quality batch. -/
theorem c3_witness :
    tasksRun (run_domain_analysis_composite (envAllRaise ["qualidade"]) []
        "xyzq" dataC3w).trace = [TaskKind.quality] := by
  have h := c3_batch_selection.2.1 (envAllRaise ["qualidade"]) [] "xyzq" dataC3w
    (by decide) (by decide) (by decide) (by decide) (by decide) (by decide) (by decide)
  exact h.trans (by decide)

/-- Claim C5 (counterexample): a greeting query over the empty record
list is answered by the canned greeting (status `OK`), not by the
FAIL-status no-data response - the greeting gate runs before the
empty-table check. -/
theorem c5_counterexample :
    (run_domain_analysis_composite (envAllRaise []) [] "olá" []).result =
      run_greeting_analysis 10 ∧
    (run_domain_analysis_composite (envAllRaise []) [] "olá" []).result.status ≠
      Status.FAIL := by
  refine ⟨by decide, by decide⟩

/-- Claim C5 (amended): on every non-greeting, non-definition query
whose record list normalizes to the empty table (the empty input list
included), the orchestrator immediately returns the fixed FAIL-status
no-data result, with an empty instrumentation trace - no analyzer, no
intent classification, no forecast, no resilience fallback - and the
conversation memory unchanged. -/
theorem c5_empty_table_no_data :
    ∀ (env : Env) (mem0 : List (String × String)) (query : String) (data : List RawRecord),
      isGreeting (pyLowerStrip query) = false →
      isDefinition (pyLowerStrip query) = false →
      prepare_dataframe data = [] →
      run_domain_analysis_composite env mem0 query data =
        { result := no_data_result, trace := [], mem := mem0 } ∧
      no_data_result.status = Status.FAIL := by
  intro env mem0 query data hg hd hpre
  refine ⟨?_, rfl⟩
  unfold run_domain_analysis_composite
  simp [hg, hd, hpre]

/-- Witness for C5 (amended), at the empty input list. -/
theorem c5_witness :
    run_domain_analysis_composite (envAllRaise []) [] "quantas falhas tivemos" [] =
      { result := no_data_result, trace := [], mem := [] } ∧
    no_data_result.status = Status.FAIL :=
  c5_empty_table_no_data (envAllRaise []) [] "quantas falhas tivemos" []
    (by decide) (by decide) (by decide)

end Spec2Proof
